import Mathlib

/-!
LEDscape: channel-order codec, frame buffer, handshake and device lifecycle.

A shallow embedding of `ledscape.h` / `ledscape.c` (host-side driver for WS281x
LED strips on the BeagleBone Black) and theorems about it.

Conventions of the embedding:

* `uint8_t`, `unsigned`, `size_t` and pointers are natural numbers; where the C
  arithmetic can wrap, the reduction modulo `2 ^ 32` is written out (the target
  is the 32-bit ARM of the BeagleBone Black: `unsigned`, `size_t` and pointers
  are 32 bits wide).
* A value of the C enumeration `color_channel_order_t` is the integer it has in
  C; the thirty enumerators are the constants `COLOR_ORDER_RGB = 0` up to
  `COLOR_ORDER_WBRG = 29`.
* A C string is the Lean string of its characters before the terminating NUL.
* The `NULL` pointer is the address `0`.
-/

namespace LEDscape

/-! ## `ledscape.h`: data model -/

/-- The number of strips supported (`#define LEDSCAPE_NUM_STRIPS 48`). -/
def LEDSCAPE_NUM_STRIPS : Nat := 48

/-- One pixel: four byte slots named by position (`ledscape_pixel_t`). -/
structure ledscape_pixel_t where
  a : Nat
  b : Nat
  c : Nat
  d : Nat
deriving DecidableEq

/-- Values of the C enumeration `color_channel_order_t`. -/
abbrev color_channel_order_t : Type := Int

def COLOR_ORDER_RGB : color_channel_order_t := 0
def COLOR_ORDER_RBG : color_channel_order_t := 1
def COLOR_ORDER_GRB : color_channel_order_t := 2
def COLOR_ORDER_GBR : color_channel_order_t := 3
def COLOR_ORDER_BGR : color_channel_order_t := 4
def COLOR_ORDER_BRG : color_channel_order_t := 5
def COLOR_ORDER_RGBW : color_channel_order_t := 6
def COLOR_ORDER_RBGW : color_channel_order_t := 7
def COLOR_ORDER_GRBW : color_channel_order_t := 8
def COLOR_ORDER_GBRW : color_channel_order_t := 9
def COLOR_ORDER_BGRW : color_channel_order_t := 10
def COLOR_ORDER_BRGW : color_channel_order_t := 11
def COLOR_ORDER_RGWB : color_channel_order_t := 12
def COLOR_ORDER_RBWG : color_channel_order_t := 13
def COLOR_ORDER_GRWB : color_channel_order_t := 14
def COLOR_ORDER_GBWR : color_channel_order_t := 15
def COLOR_ORDER_BGWR : color_channel_order_t := 16
def COLOR_ORDER_BRWG : color_channel_order_t := 17
def COLOR_ORDER_RWGB : color_channel_order_t := 18
def COLOR_ORDER_RWBG : color_channel_order_t := 19
def COLOR_ORDER_GWRB : color_channel_order_t := 20
def COLOR_ORDER_GWBR : color_channel_order_t := 21
def COLOR_ORDER_BWGR : color_channel_order_t := 22
def COLOR_ORDER_BWRG : color_channel_order_t := 23
def COLOR_ORDER_WRGB : color_channel_order_t := 24
def COLOR_ORDER_WRBG : color_channel_order_t := 25
def COLOR_ORDER_WGRB : color_channel_order_t := 26
def COLOR_ORDER_WGBR : color_channel_order_t := 27
def COLOR_ORDER_WBGR : color_channel_order_t := 28
def COLOR_ORDER_WBRG : color_channel_order_t := 29

/-- The inline function `ledscape_pixel_set_color` of `ledscape.h`: the pixel
after the call, given the pixel `out_pixel` before it.  The `switch` has no
`default`: any other value leaves the pixel as it was. -/
def ledscape_pixel_set_color (out_pixel : ledscape_pixel_t)
    (color_channel_order : color_channel_order_t) (r g b w : Nat) : ledscape_pixel_t :=
  if color_channel_order = COLOR_ORDER_RGB then { out_pixel with a := r, b := g, c := b }
  else if color_channel_order = COLOR_ORDER_RBG then { out_pixel with a := r, b := b, c := g }
  else if color_channel_order = COLOR_ORDER_GRB then { out_pixel with a := g, b := r, c := b }
  else if color_channel_order = COLOR_ORDER_GBR then { out_pixel with a := g, b := b, c := r }
  else if color_channel_order = COLOR_ORDER_BGR then { out_pixel with a := b, b := g, c := r }
  else if color_channel_order = COLOR_ORDER_BRG then { out_pixel with a := b, b := r, c := g }
  else if color_channel_order = COLOR_ORDER_RGBW then { out_pixel with a := r, b := g, c := w, d := b }
  else if color_channel_order = COLOR_ORDER_RBGW then { out_pixel with a := r, b := b, c := w, d := g }
  else if color_channel_order = COLOR_ORDER_GRBW then { out_pixel with a := g, b := r, c := w, d := b }
  else if color_channel_order = COLOR_ORDER_GBRW then { out_pixel with a := g, b := b, c := w, d := r }
  else if color_channel_order = COLOR_ORDER_BGRW then { out_pixel with a := b, b := g, c := w, d := r }
  else if color_channel_order = COLOR_ORDER_BRGW then { out_pixel with a := b, b := r, c := w, d := g }
  else if color_channel_order = COLOR_ORDER_RGWB then { out_pixel with a := r, b := g, c := w, d := b }
  else if color_channel_order = COLOR_ORDER_RBWG then { out_pixel with a := r, b := b, c := w, d := g }
  else if color_channel_order = COLOR_ORDER_GRWB then { out_pixel with a := g, b := r, c := w, d := b }
  else if color_channel_order = COLOR_ORDER_GBWR then { out_pixel with a := g, b := b, c := w, d := r }
  else if color_channel_order = COLOR_ORDER_BGWR then { out_pixel with a := b, b := g, c := w, d := g }
  else if color_channel_order = COLOR_ORDER_BRWG then { out_pixel with a := b, b := r, c := w, d := g }
  else if color_channel_order = COLOR_ORDER_RWGB then { out_pixel with a := r, b := w, c := g, d := b }
  else if color_channel_order = COLOR_ORDER_RWBG then { out_pixel with a := r, b := w, c := b, d := g }
  else if color_channel_order = COLOR_ORDER_GWRB then { out_pixel with a := g, b := w, c := r, d := b }
  else if color_channel_order = COLOR_ORDER_GWBR then { out_pixel with a := g, b := w, c := b, d := r }
  else if color_channel_order = COLOR_ORDER_BWGR then { out_pixel with a := b, b := w, c := g, d := r }
  else if color_channel_order = COLOR_ORDER_BWRG then { out_pixel with a := b, b := w, c := r, d := g }
  else if color_channel_order = COLOR_ORDER_WRGB then { out_pixel with a := w, b := r, c := g, d := b }
  else if color_channel_order = COLOR_ORDER_WRBG then { out_pixel with a := w, b := r, c := b, d := g }
  else if color_channel_order = COLOR_ORDER_WGRB then { out_pixel with a := w, b := g, c := r, d := b }
  else if color_channel_order = COLOR_ORDER_WGBR then { out_pixel with a := w, b := g, c := b, d := r }
  else if color_channel_order = COLOR_ORDER_WBGR then { out_pixel with a := w, b := b, c := g, d := r }
  else if color_channel_order = COLOR_ORDER_WBRG then { out_pixel with a := w, b := b, c := r, d := g }
  else out_pixel

/-! ## `ledscape.c`: channel-order names -/

/-- `color_channel_order_to_string` of `ledscape.c`. -/
def color_channel_order_to_string (color_channel_order : color_channel_order_t) : String :=
  if color_channel_order = COLOR_ORDER_RGB then "RGB"
  else if color_channel_order = COLOR_ORDER_RBG then "RBG"
  else if color_channel_order = COLOR_ORDER_GRB then "GRB"
  else if color_channel_order = COLOR_ORDER_GBR then "GBR"
  else if color_channel_order = COLOR_ORDER_BGR then "BGR"
  else if color_channel_order = COLOR_ORDER_BRG then "BRG"
  else if color_channel_order = COLOR_ORDER_RGBW then "RGB"
  else if color_channel_order = COLOR_ORDER_RBGW then "RBG"
  else if color_channel_order = COLOR_ORDER_GRBW then "GRB"
  else if color_channel_order = COLOR_ORDER_GBRW then "GBR"
  else if color_channel_order = COLOR_ORDER_BGRW then "BGR"
  else if color_channel_order = COLOR_ORDER_BRGW then "BRG"
  else if color_channel_order = COLOR_ORDER_RGWB then "RGWB"
  else if color_channel_order = COLOR_ORDER_RBWG then "RBWG"
  else if color_channel_order = COLOR_ORDER_GRWB then "GRWB"
  else if color_channel_order = COLOR_ORDER_GBWR then "GBWR"
  else if color_channel_order = COLOR_ORDER_BGWR then "BGWR"
  else if color_channel_order = COLOR_ORDER_BRWG then "BRWG"
  else if color_channel_order = COLOR_ORDER_RWGB then "RWGB"
  else if color_channel_order = COLOR_ORDER_RWBG then "RWBG"
  else if color_channel_order = COLOR_ORDER_GWRB then "GWRB"
  else if color_channel_order = COLOR_ORDER_GWBR then "GWBR"
  else if color_channel_order = COLOR_ORDER_BWGR then "BWGR"
  else if color_channel_order = COLOR_ORDER_BWRG then "BWRG"
  else if color_channel_order = COLOR_ORDER_WRGB then "WRGB"
  else if color_channel_order = COLOR_ORDER_WRBG then "WRBG"
  else if color_channel_order = COLOR_ORDER_WGRB then "WGRB"
  else if color_channel_order = COLOR_ORDER_WGBR then "WGBR"
  else if color_channel_order = COLOR_ORDER_WBGR then "WBGR"
  else if color_channel_order = COLOR_ORDER_WBRG then "WBRG"
  else "<invalid color_channel_order>"

/-- The C library's `tolower` in the C locale, on a character code. -/
def tolower (c : Nat) : Nat :=
  if 65 ≤ c ∧ c ≤ 90 then c + 32 else c

/-- The C library's `strcasecmp` on the character codes of two strings: the
difference of the first pair of lower-cased characters that differ, the end of
a string counting as the terminating NUL (code 0). -/
def strcasecmp_codes : List Nat → List Nat → Int
  | [], [] => 0
  | [], c2 :: _ => 0 - (tolower c2 : Int)
  | c1 :: _, [] => (tolower c1 : Int) - 0
  | c1 :: s1, c2 :: s2 =>
    if tolower c1 = tolower c2 then strcasecmp_codes s1 s2
    else (tolower c1 : Int) - (tolower c2 : Int)

/-- The character codes of a string. -/
def codes (s : String) : List Nat :=
  s.toList.map Char.toNat

/-- The C library's `strcasecmp`. -/
def strcasecmp (s1 s2 : String) : Int :=
  strcasecmp_codes (codes s1) (codes s2)

/-- `color_channel_order_from_string` of `ledscape.c`.  The final `return -1`
yields a value of the enumeration type that is none of the enumerators. -/
def color_channel_order_from_string (str : String) : color_channel_order_t :=
  if strcasecmp str "RGB" = 0 then COLOR_ORDER_RGB
  else if strcasecmp str "RBG" = 0 then COLOR_ORDER_RBG
  else if strcasecmp str "GRB" = 0 then COLOR_ORDER_GRB
  else if strcasecmp str "GBR" = 0 then COLOR_ORDER_GBR
  else if strcasecmp str "BGR" = 0 then COLOR_ORDER_BGR
  else if strcasecmp str "BRG" = 0 then COLOR_ORDER_BRG
  else if strcasecmp str "RGBW" = 0 then COLOR_ORDER_RGBW
  else if strcasecmp str "RBGW" = 0 then COLOR_ORDER_RBGW
  else if strcasecmp str "GRBW" = 0 then COLOR_ORDER_GRBW
  else if strcasecmp str "GBRW" = 0 then COLOR_ORDER_GBRW
  else if strcasecmp str "BGRW" = 0 then COLOR_ORDER_BGRW
  else if strcasecmp str "BRGW" = 0 then COLOR_ORDER_BRGW
  else if strcasecmp str "RGWB" = 0 then COLOR_ORDER_RGWB
  else if strcasecmp str "RBWG" = 0 then COLOR_ORDER_RBWG
  else if strcasecmp str "GRWB" = 0 then COLOR_ORDER_GRWB
  else if strcasecmp str "GBWR" = 0 then COLOR_ORDER_GBWR
  else if strcasecmp str "BGWR" = 0 then COLOR_ORDER_BGWR
  else if strcasecmp str "BRWG" = 0 then COLOR_ORDER_BRWG
  else if strcasecmp str "RWGB" = 0 then COLOR_ORDER_RWGB
  else if strcasecmp str "RWBG" = 0 then COLOR_ORDER_RWBG
  else if strcasecmp str "GWRB" = 0 then COLOR_ORDER_GWRB
  else if strcasecmp str "GWBR" = 0 then COLOR_ORDER_GWBR
  else if strcasecmp str "BWGR" = 0 then COLOR_ORDER_BWGR
  else if strcasecmp str "BWRG" = 0 then COLOR_ORDER_BWRG
  else if strcasecmp str "WRGB" = 0 then COLOR_ORDER_WRGB
  else if strcasecmp str "WRBG" = 0 then COLOR_ORDER_WRBG
  else if strcasecmp str "WGRB" = 0 then COLOR_ORDER_WGRB
  else if strcasecmp str "WGBR" = 0 then COLOR_ORDER_WGBR
  else if strcasecmp str "WBGR" = 0 then COLOR_ORDER_WBGR
  else if strcasecmp str "WBRG" = 0 then COLOR_ORDER_WBRG
  else -1

/-- The thirty enumerators of `color_channel_order_t`, in declaration order. -/
def color_channel_orders : List color_channel_order_t :=
  [COLOR_ORDER_RGB, COLOR_ORDER_RBG, COLOR_ORDER_GRB, COLOR_ORDER_GBR, COLOR_ORDER_BGR,
   COLOR_ORDER_BRG, COLOR_ORDER_RGBW, COLOR_ORDER_RBGW, COLOR_ORDER_GRBW, COLOR_ORDER_GBRW,
   COLOR_ORDER_BGRW, COLOR_ORDER_BRGW, COLOR_ORDER_RGWB, COLOR_ORDER_RBWG, COLOR_ORDER_GRWB,
   COLOR_ORDER_GBWR, COLOR_ORDER_BGWR, COLOR_ORDER_BRWG, COLOR_ORDER_RWGB, COLOR_ORDER_RWBG,
   COLOR_ORDER_GWRB, COLOR_ORDER_GWBR, COLOR_ORDER_BWGR, COLOR_ORDER_BWRG, COLOR_ORDER_WRGB,
   COLOR_ORDER_WRBG, COLOR_ORDER_WGRB, COLOR_ORDER_WGBR, COLOR_ORDER_WBGR, COLOR_ORDER_WBRG]

/-- The enumerators of `color_channel_order_t` with the name each carries after
the prefix `COLOR_ORDER_` in the `typedef enum` of `ledscape.h`. -/
def color_channel_order_enumerators : List (String × color_channel_order_t) :=
  [("RGB", COLOR_ORDER_RGB), ("RBG", COLOR_ORDER_RBG), ("GRB", COLOR_ORDER_GRB),
   ("GBR", COLOR_ORDER_GBR), ("BGR", COLOR_ORDER_BGR), ("BRG", COLOR_ORDER_BRG),
   ("RGBW", COLOR_ORDER_RGBW), ("RBGW", COLOR_ORDER_RBGW), ("GRBW", COLOR_ORDER_GRBW),
   ("GBRW", COLOR_ORDER_GBRW), ("BGRW", COLOR_ORDER_BGRW), ("BRGW", COLOR_ORDER_BRGW),
   ("RGWB", COLOR_ORDER_RGWB), ("RBWG", COLOR_ORDER_RBWG), ("GRWB", COLOR_ORDER_GRWB),
   ("GBWR", COLOR_ORDER_GBWR), ("BGWR", COLOR_ORDER_BGWR), ("BRWG", COLOR_ORDER_BRWG),
   ("RWGB", COLOR_ORDER_RWGB), ("RWBG", COLOR_ORDER_RWBG), ("GWRB", COLOR_ORDER_GWRB),
   ("GWBR", COLOR_ORDER_GWBR), ("BWGR", COLOR_ORDER_BWGR), ("BWRG", COLOR_ORDER_BWRG),
   ("WRGB", COLOR_ORDER_WRGB), ("WRBG", COLOR_ORDER_WRBG), ("WGRB", COLOR_ORDER_WGRB),
   ("WGBR", COLOR_ORDER_WGBR), ("WBGR", COLOR_ORDER_WBGR), ("WBRG", COLOR_ORDER_WBRG)]

/-- The name of an enumerator after `COLOR_ORDER_` (empty for any other value). -/
def enumerator_name (o : color_channel_order_t) : String :=
  match color_channel_order_enumerators.find? (fun e => e.2 == o) with
  | some e => e.1
  | none => ""

/-! ## `ledscape.c`: device, frame addressing and bring-up -/

/-- The command structure shared with a PRU (`ws281x_command_t`). -/
structure ws281x_command_t where
  pixels_dma : Nat
  num_pixels : Nat
  command : Nat
  response : Nat
deriving DecidableEq

/-- Modelled from the spec: the coprocessor context `pru_t` is declared in
`pru.h`, which is not part of the sources at hand.  It carries the fields that
`ledscape.c` reads: the mapped address `ddr` of the shared region in the
process, its device-physical base `ddr_addr` and its size `ddr_size`.  The
command block that the field `data_ram` points to is held by value in
`ledscape_t`. -/
structure pru_t where
  ddr : Nat
  ddr_addr : Nat
  ddr_size : Nat
deriving DecidableEq

/-- The device (`ledscape_t`); `ws281x_0` and `ws281x_1` hold the current
contents of the two command blocks the C pointers refer to. -/
structure ledscape_t where
  ws281x_0 : ws281x_command_t
  ws281x_1 : ws281x_command_t
  pru0 : pru_t
  pru1 : pru_t
  pru0_program_filename : String
  pru1_program_filename : String
  num_pixels : Nat
  frame_size : Nat
deriving DecidableEq

/-- The null pointer. -/
def NULL : Nat := 0

/-- Multiplication of two 32-bit unsigned values (`unsigned`, `size_t`). -/
def mul32 (x y : Nat) : Nat :=
  (x * y) % 2 ^ 32

/-- `ledscape_frame` of `ledscape.c`: the address of one of the two frame
buffers, or `NULL`. -/
def ledscape_frame (leds : ledscape_t) (frame : Nat) : Nat :=
  if frame ≥ 2 then NULL
  else leds.pru0.ddr + mul32 leds.frame_size frame

def gpios0 : List Nat :=
  [2, 3, 7, 8, 9, 10, 11, 14, 20, 22, 23, 26, 27, 30, 31]

def gpios1 : List Nat :=
  [12, 13, 14, 15, 16, 17, 18, 19, 28, 29]

def gpios2 : List Nat :=
  [1, 2, 3, 4, 5, 6, 7, 8, 9, 10, 11, 12, 13, 14, 15, 16, 17, 22, 23, 24, 25]

def gpios3 : List Nat :=
  [14, 15, 16, 17, 19, 21]

/-- What the driver does that is visible outside a function, in program order:
calls into the coprocessor runtime, stores to the command blocks and loads of
their volatile words. -/
inductive event where
  | pru_init (pru_num : Nat)
  | die
  | store_block (pru_num : Nat) (block : ws281x_command_t)
  | pru_gpio (bank pin direction initial : Nat)
  | pru_exec (pru_num : Nat) (program : String)
  | load_response (pru_num : Nat) (value : Nat)
  | store_pixels_dma (pru_num : Nat) (value : Nat)
  | load_command (pru_num : Nat) (value : Nat)
  | store_response (pru_num : Nat) (value : Nat)
  | store_command (pru_num : Nat) (value : Nat)
  | pru_wait_interrupt
  | pru_close (pru_num : Nat)
deriving DecidableEq

/-- How a run of `ledscape_init_with_programs` ends: in `die`, still spinning
in a start-up loop when the observed response words ran out, or returning the
device. -/
inductive init_outcome where
  | died (log : List event)
  | spinning (log : List event)
  | ready (leds : ledscape_t) (log : List event)
deriving DecidableEq

/-- The loop `while (!response);` run against the successive values that the
loads of the response word of coprocessor `pru_num` return: the first non-zero
value and the loads made up to it, or `none` when every value is zero. -/
def poll_response (pru_num : Nat) : List Nat → Option (Nat × List event)
  | [] => none
  | value :: rest =>
    if value ≠ 0 then some (value, [event.load_response pru_num value])
    else
      match poll_response pru_num rest with
      | none => none
      | some (v, loads) => some (v, event.load_response pru_num value :: loads)

/-- `ledscape_init_with_programs` of `ledscape.c`.  `pru0` and `pru1` are the
contexts that `pru_init(0)` and `pru_init(1)` return; `responses_0` and
`responses_1` are the values that the successive loads of the two response
words return in the two start-up loops.  `die` is declared outside the sources
at hand; as the specification says of a failed capacity check, it aborts
initialisation and no device is returned. -/
def ledscape_init_with_programs (pru0 pru1 : pru_t) (num_pixels : Nat)
    (pru0_program_filename pru1_program_filename : String)
    (responses_0 responses_1 : List Nat) : init_outcome :=
  let log_init := [event.pru_init 0, event.pru_init 1]
  let frame_size := mul32 (mul32 num_pixels LEDSCAPE_NUM_STRIPS) 4
  if mul32 2 frame_size > pru0.ddr_size then init_outcome.died (log_init ++ [event.die])
  else
    let block : ws281x_command_t :=
      { pixels_dma := 0, command := 0, response := 0, num_pixels := num_pixels }
    let leds : ledscape_t :=
      { pru0 := pru0, pru1 := pru1, num_pixels := num_pixels, frame_size := frame_size,
        pru0_program_filename := pru0_program_filename,
        pru1_program_filename := pru1_program_filename,
        ws281x_0 := block, ws281x_1 := block }
    let log_exec0 := log_init ++ [event.store_block 1 block, event.store_block 0 block]
      ++ gpios0.map (fun pin => event.pru_gpio 0 pin 1 0)
      ++ gpios1.map (fun pin => event.pru_gpio 1 pin 1 0)
      ++ gpios2.map (fun pin => event.pru_gpio 2 pin 1 0)
      ++ gpios3.map (fun pin => event.pru_gpio 3 pin 1 0)
      ++ [event.pru_exec 0 pru0_program_filename]
    match poll_response 0 responses_0 with
    | none => init_outcome.spinning (log_exec0 ++ responses_0.map (event.load_response 0))
    | some (response_0, loads_0) =>
      let log_exec1 := log_exec0 ++ loads_0 ++ [event.pru_exec 1 pru1_program_filename]
      match poll_response 1 responses_1 with
      | none => init_outcome.spinning (log_exec1 ++ responses_1.map (event.load_response 1))
      | some (response_1, loads_1) =>
        init_outcome.ready
          { leds with ws281x_0 := { leds.ws281x_0 with response := response_0 },
                      ws281x_1 := { leds.ws281x_1 with response := response_1 } }
          (log_exec1 ++ loads_1)

/-- `ledscape_init` of `ledscape.c`. -/
def ledscape_init (pru0 pru1 : pru_t) (num_pixels : Nat)
    (responses_0 responses_1 : List Nat) : init_outcome :=
  ledscape_init_with_programs pru0 pru1 num_pixels
    "pru/bin/ws281x-original-ledscape-pru0.bin" "pru/bin/ws281x-original-ledscape-pru1.bin"
    responses_0 responses_1

/-- The device a run returns, if it returns one. -/
def init_outcome.device : init_outcome → Option ledscape_t
  | init_outcome.ready leds _ => some leds
  | _ => none

/-! ## `ledscape.c`: transfer, completion and shutdown -/

/-- Addition of two 32-bit unsigned values (`uintptr_t`). -/
def add32 (x y : Nat) : Nat :=
  (x + y) % 2 ^ 32

/-- The words of the two command blocks that the coprocessors write (each
clears its `command` on acceptance and writes its `response`), as the host finds
them at one pass through a waiting loop. -/
structure pru_words where
  command_0 : Nat
  response_0 : Nat
  command_1 : Nat
  response_1 : Nat
deriving DecidableEq

/-- The device state once the coprocessors have left `words` in the command
blocks; `pixels_dma` and `num_pixels` are written by the host only. -/
def observe (leds : ledscape_t) (words : pru_words) : ledscape_t :=
  { leds with
    ws281x_0 := { leds.ws281x_0 with command := words.command_0, response := words.response_0 },
    ws281x_1 := { leds.ws281x_1 with command := words.command_1, response := words.response_1 } }

/-- How a run of `ledscape_draw` or `ledscape_wait` ends: still in its waiting
loop when the observed words ran out, or returning; either way with the device
state reached and the log of what was done. -/
inductive run_outcome where
  | spinning (leds : ledscape_t) (log : List event)
  | returned (leds : ledscape_t) (log : List event)
deriving DecidableEq

/-- The outcome of a run that comes after the events of `log`. -/
def run_outcome.after (log : List event) : run_outcome → run_outcome
  | run_outcome.spinning leds rest => run_outcome.spinning leds (log ++ rest)
  | run_outcome.returned leds rest => run_outcome.returned leds (log ++ rest)

/-- The loop `while (leds->ws281x_0->command || leds->ws281x_1->command);` of
`ledscape_draw`, one element of `observed` per pass; the second command word is
loaded only when the first one read zero. -/
def poll_commands (leds : ledscape_t) : List pru_words → run_outcome
  | [] => run_outcome.spinning leds []
  | words :: rest =>
    let seen := observe leds words
    if seen.ws281x_0.command ≠ 0 then
      (poll_commands seen rest).after [event.load_command 0 seen.ws281x_0.command]
    else if seen.ws281x_1.command ≠ 0 then
      (poll_commands seen rest).after
        [event.load_command 0 seen.ws281x_0.command, event.load_command 1 seen.ws281x_1.command]
    else
      run_outcome.returned seen
        [event.load_command 0 seen.ws281x_0.command, event.load_command 1 seen.ws281x_1.command]

/-- `ledscape_draw` of `ledscape.c`; `observed` holds what the coprocessors
left in the command blocks at each pass of the acknowledgement loop. -/
def ledscape_draw (leds : ledscape_t) (frame : Nat) (observed : List pru_words) : run_outcome :=
  let pixels_dma := add32 leds.pru0.ddr_addr (mul32 leds.frame_size frame)
  let published : ledscape_t :=
    { leds with ws281x_0 := { leds.ws281x_0 with pixels_dma := pixels_dma },
                ws281x_1 := { leds.ws281x_1 with pixels_dma := pixels_dma } }
  let log_dma := [event.store_pixels_dma 0 pixels_dma, event.store_pixels_dma 1 pixels_dma]
  match poll_commands published observed with
  | run_outcome.spinning seen loads => run_outcome.spinning seen (log_dma ++ loads)
  | run_outcome.returned seen loads =>
    run_outcome.returned
      { seen with ws281x_0 := { seen.ws281x_0 with response := 0, command := 1 },
                  ws281x_1 := { seen.ws281x_1 with response := 0, command := 1 } }
      (log_dma ++ loads ++ [event.store_response 1 0, event.store_response 0 0,
        event.store_command 0 1, event.store_command 1 1])

/-- `ledscape_wait` of `ledscape.c`; `observed` holds what the coprocessors
left in the command blocks after each return of `pru_wait_interrupt`.  When no
further interrupt arrives the run stays blocked in `pru_wait_interrupt`. -/
def ledscape_wait (leds : ledscape_t) : List pru_words → run_outcome
  | [] => run_outcome.spinning leds [event.pru_wait_interrupt]
  | words :: rest =>
    let seen := observe leds words
    if seen.ws281x_0.response ≠ 0 then
      if seen.ws281x_1.response ≠ 0 then
        run_outcome.returned seen
          [event.pru_wait_interrupt, event.load_response 0 seen.ws281x_0.response,
            event.load_response 1 seen.ws281x_1.response]
      else
        (ledscape_wait seen rest).after
          [event.pru_wait_interrupt, event.load_response 0 seen.ws281x_0.response,
            event.load_response 1 seen.ws281x_1.response]
    else
      (ledscape_wait seen rest).after
        [event.pru_wait_interrupt, event.load_response 0 seen.ws281x_0.response]

/-- `ledscape_close` of `ledscape.c`: the device state left behind and the log
of what was done. -/
def ledscape_close (leds : ledscape_t) : ledscape_t × List event :=
  ({ leds with ws281x_0 := { leds.ws281x_0 with command := 255 },
               ws281x_1 := { leds.ws281x_1 with command := 255 } },
   [event.store_command 0 255, event.store_command 1 255, event.pru_close 0, event.pru_close 1])

/-! ## `ledscape.h`: writing a pixel of a frame in memory -/

/-- Byte-addressed memory. -/
abbrev memory : Type := Nat → Nat

/-- The pixel stored at an address: four consecutive bytes, slots a, b, c, d
(`ledscape_pixel_t` is packed). -/
def load_pixel (mem : memory) (addr : Nat) : ledscape_pixel_t :=
  { a := mem addr, b := mem (addr + 1), c := mem (addr + 2), d := mem (addr + 3) }

/-- Memory after storing a pixel at an address. -/
def store_pixel (mem : memory) (addr : Nat) (p : ledscape_pixel_t) : memory :=
  fun i =>
    if i = addr then p.a
    else if i = addr + 1 then p.b
    else if i = addr + 2 then p.c
    else if i = addr + 3 then p.d
    else mem i

/-- `sizeof(ledscape_pixel_t)`. -/
def sizeof_pixel : Nat := 4

/-- `sizeof(ledscape_frame_t)`: one row of `LEDSCAPE_NUM_STRIPS` packed pixels. -/
def sizeof_frame : Nat := LEDSCAPE_NUM_STRIPS * sizeof_pixel

/-- The inline function `ledscape_set_color` of `ledscape.h`: memory after the
call.  `frame` is the address the pointer holds; `&frame[pixel].strip[strip]`
is plain address arithmetic, and the pixel there is updated in place. -/
def ledscape_set_color (mem : memory) (frame : Nat) (color_channel_order : color_channel_order_t)
    (strip pixel r g b w : Nat) : memory :=
  let out_pixel := frame + pixel * sizeof_frame + strip * sizeof_pixel
  store_pixel mem out_pixel
    (ledscape_pixel_set_color (load_pixel mem out_pixel) color_channel_order r g b w)

/-! ## Vocabulary of the specification -/

/-- The channel value that a letter of a channel-order name stands for. -/
def channel (r g b w : Nat) (letter : Char) : Option Nat :=
  if letter = 'R' then some r
  else if letter = 'G' then some g
  else if letter = 'B' then some b
  else if letter = 'W' then some w
  else none

/-- The four slots of a pixel, in memory order. -/
def slots (p : ledscape_pixel_t) : List Nat :=
  [p.a, p.b, p.c, p.d]

/-- The channels named by the letters of a name, in order. -/
def named_channels (name : String) (r g b w : Nat) : List (Option Nat) :=
  name.toList.map (channel r g b w)

/-- The identifiers whose canonical name has three letters. -/
def three_letter_orders : List color_channel_order_t :=
  color_channel_orders.filter (fun o => (color_channel_order_to_string o).length == 3)

/-- The identifiers whose canonical name has four letters. -/
def four_letter_orders : List color_channel_order_t :=
  color_channel_orders.filter (fun o => (color_channel_order_to_string o).length == 4)

/-- The six identifiers declared without a `W`. -/
def plain_orders : List color_channel_order_t :=
  [COLOR_ORDER_RGB, COLOR_ORDER_RBG, COLOR_ORDER_GRB, COLOR_ORDER_GBR, COLOR_ORDER_BGR,
   COLOR_ORDER_BRG]

/-- The six identifiers declared with a trailing `W`. -/
def w_suffix_orders : List color_channel_order_t :=
  [COLOR_ORDER_RGBW, COLOR_ORDER_RBGW, COLOR_ORDER_GRBW, COLOR_ORDER_GBRW, COLOR_ORDER_BGRW,
   COLOR_ORDER_BRGW]

/-- The six permutations of the letters R, G, B. -/
def rgb_permutations : List String :=
  ["RGB", "RBG", "GRB", "GBR", "BGR", "BRG"]

/-- Two character codes are the same character up to ASCII letter case: equal,
or one is an upper-case letter and the other its lower-case form. -/
def same_letter (c1 c2 : Nat) : Bool :=
  c1 == c2 || (decide (65 ≤ c1) && decide (c1 ≤ 90) && c2 == c1 + 32)
    || (decide (65 ≤ c2) && decide (c2 ≤ 90) && c1 == c2 + 32)

/-- Two code sequences have the same length and agree position by position up
to ASCII letter case. -/
def eq_ignoring_case_codes : List Nat → List Nat → Bool
  | [], [] => true
  | c1 :: s1, c2 :: s2 => same_letter c1 c2 && eq_ignoring_case_codes s1 s2
  | _, _ => false

/-- Two strings are equal ignoring ASCII letter case. -/
def eq_ignoring_case (s t : String) : Bool :=
  eq_ignoring_case_codes (codes s) (codes t)

/-- A string is a C string: no NUL character occurs in it. -/
def is_c_string (s : String) : Prop :=
  0 ∉ codes s

instance (s : String) : Decidable (is_c_string s) := by
  unfold is_c_string; infer_instance

/-- The thirty names compared against in `color_channel_order_from_string`. -/
def accepted_names : List String :=
  ["RGB", "RBG", "GRB", "GBR", "BGR", "BRG", "RGBW", "RBGW", "GRBW", "GBRW", "BGRW", "BRGW",
   "RGWB", "RBWG", "GRWB", "GBWR", "BGWR", "BRWG", "RWGB", "RWBG", "GWRB", "GWBR", "BWGR",
   "BWRG", "WRGB", "WRBG", "WGRB", "WGBR", "WBGR", "WBRG"]

/-- The if-chain of `color_channel_order_from_string` as a search through a
table of names, each compared ignoring case. -/
def lookup_ignoring_case (str : String) :
    List (String × color_channel_order_t) → color_channel_order_t
  | [] => -1
  | e :: rest => if eq_ignoring_case str e.1 = true then e.2 else lookup_ignoring_case str rest

/-- The log of a bring-up run. -/
def init_outcome.log : init_outcome → List event
  | init_outcome.died log => log
  | init_outcome.spinning log => log
  | init_outcome.ready _ log => log

/-- The log of a run of `ledscape_draw` or `ledscape_wait`. -/
def run_outcome.log : run_outcome → List event
  | run_outcome.spinning _ log => log
  | run_outcome.returned _ log => log

/-- The device state a run of `ledscape_draw` or `ledscape_wait` reached. -/
def run_outcome.leds : run_outcome → ledscape_t
  | run_outcome.spinning leds _ => leds
  | run_outcome.returned leds _ => leds

/-- Whether a run returned. -/
def run_outcome.has_returned : run_outcome → Bool
  | run_outcome.spinning _ _ => false
  | run_outcome.returned _ _ => true

/-- The event is a program start. -/
def event.is_pru_exec : event → Bool
  | event.pru_exec _ _ => true
  | _ => false

/-- The event is a GPIO configuration call. -/
def event.is_pru_gpio : event → Bool
  | event.pru_gpio _ _ _ _ => true
  | _ => false

/-- The event is a store to a command block. -/
def event.is_store : event → Bool
  | event.store_block _ _ => true
  | event.store_pixels_dma _ _ => true
  | event.store_response _ _ => true
  | event.store_command _ _ => true
  | _ => false

/-- The event is a load from a command block. -/
def event.is_load : event → Bool
  | event.load_response _ _ => true
  | event.load_command _ _ => true
  | _ => false

/-- The events of a log that come before the first program start. -/
def before_first_exec (log : List event) : List event :=
  log.takeWhile (fun e => !e.is_pru_exec)

/-- The pins of a bank that a log configures as outputs with initial value 0,
in call order. -/
def output_pins (bank : Nat) (log : List event) : List Nat :=
  log.filterMap (fun e =>
    match e with
    | event.pru_gpio b pin 1 0 => if b = bank then some pin else none
    | _ => none)

/-- Both response words are non-zero. -/
def both_done (words : pru_words) : Bool :=
  words.response_0 != 0 && words.response_1 != 0

/-- Both command words are zero. -/
def both_idle (words : pru_words) : Bool :=
  words.command_0 == 0 && words.command_1 == 0

/-- The command block that bring-up stores in both coprocessors' data memory. -/
def initial_block (num_pixels : Nat) : ws281x_command_t :=
  { pixels_dma := 0, num_pixels := num_pixels, command := 0, response := 0 }

/-- The events of bring-up from the first call up to and including the start of
program 0, for a run that passes the capacity check. -/
def init_log_to_exec0 (num_pixels : Nat) (pru0_program_filename : String) : List event :=
  [event.pru_init 0, event.pru_init 1,
   event.store_block 1 (initial_block num_pixels), event.store_block 0 (initial_block num_pixels)]
  ++ gpios0.map (fun pin => event.pru_gpio 0 pin 1 0)
  ++ gpios1.map (fun pin => event.pru_gpio 1 pin 1 0)
  ++ gpios2.map (fun pin => event.pru_gpio 2 pin 1 0)
  ++ gpios3.map (fun pin => event.pru_gpio 3 pin 1 0)
  ++ [event.pru_exec 0 pru0_program_filename]

/-- A device fresh from bring-up, used in examples. -/
def example_leds : ledscape_t :=
  { ws281x_0 := { pixels_dma := 0, num_pixels := 100, command := 0, response := 1 },
    ws281x_1 := { pixels_dma := 0, num_pixels := 100, command := 0, response := 1 },
    pru0 := { ddr := 3064987648, ddr_addr := 2657878016, ddr_size := 262144 },
    pru1 := { ddr := 3064987648, ddr_addr := 2657878016, ddr_size := 262144 },
    pru0_program_filename := "pru0.bin", pru1_program_filename := "pru1.bin",
    num_pixels := 100, frame_size := 19200 }

/-- The comparison `2*frame_size > pru0->ddr_size` of bring-up, as the code
evaluates it for a requested `num_pixels`. -/
def capacity_check_fails (pru0 : pru_t) (num_pixels : Nat) : Prop :=
  mul32 2 (mul32 (mul32 num_pixels LEDSCAPE_NUM_STRIPS) 4) > pru0.ddr_size

instance (pru0 : pru_t) (num_pixels : Nat) : Decidable (capacity_check_fails pru0 num_pixels) := by
  unfold capacity_check_fails; infer_instance

/-- The loads made by the passes of the acknowledgement loop of `ledscape_draw`
that found a command word still set. -/
def busy_loads : List pru_words → List event
  | [] => []
  | words :: rest =>
    (if words.command_0 ≠ 0 then [event.load_command 0 words.command_0]
     else [event.load_command 0 words.command_0, event.load_command 1 words.command_1])
    ++ busy_loads rest

/-- The calls and loads made by the passes of the loop of `ledscape_wait` that
did not find both response words set. -/
def waiting_loads : List pru_words → List event
  | [] => []
  | words :: rest =>
    (if words.response_0 ≠ 0 then
      [event.pru_wait_interrupt, event.load_response 0 words.response_0,
        event.load_response 1 words.response_1]
     else [event.pru_wait_interrupt, event.load_response 0 words.response_0])
    ++ waiting_loads rest

/-! ## Lemmas on `strcasecmp` -/

theorem tolower_eq_zero {c : Nat} (h : tolower c = 0) : c = 0 := by
  unfold tolower at h
  split_ifs at h
  all_goals omega

theorem same_letter_iff (c1 c2 : Nat) : same_letter c1 c2 = true ↔ tolower c1 = tolower c2 := by
  unfold same_letter tolower
  simp only [Bool.or_eq_true, Bool.and_eq_true, beq_iff_eq, decide_eq_true_eq]
  split_ifs <;> omega

theorem eq_ignoring_case_codes_iff (s t : List Nat) :
    eq_ignoring_case_codes s t = true ↔ s.map tolower = t.map tolower := by
  induction s generalizing t with
  | nil => cases t <;> simp [eq_ignoring_case_codes]
  | cons c1 s1 ih =>
    cases t with
    | nil => simp [eq_ignoring_case_codes]
    | cons c2 s2 =>
      simp [eq_ignoring_case_codes, same_letter_iff, ih]

theorem strcasecmp_codes_eq_zero_iff (s t : List Nat) (hs : 0 ∉ s) (ht : 0 ∉ t) :
    strcasecmp_codes s t = 0 ↔ s.map tolower = t.map tolower := by
  induction s generalizing t with
  | nil =>
    cases t with
    | nil => simp [strcasecmp_codes]
    | cons c2 s2 =>
      have h2 : c2 ≠ 0 := fun h => ht (by simp [h])
      have : tolower c2 ≠ 0 := fun h => h2 (tolower_eq_zero h)
      simp only [strcasecmp_codes, List.map_nil, List.map_cons]
      constructor
      · intro h; omega
      · intro h; cases h
  | cons c1 s1 ih =>
    have h1 : c1 ≠ 0 := fun h => hs (by simp [h])
    have hs1 : 0 ∉ s1 := fun h => hs (List.mem_cons_of_mem _ h)
    have : tolower c1 ≠ 0 := fun h => h1 (tolower_eq_zero h)
    cases t with
    | nil =>
      simp only [strcasecmp_codes, List.map_nil, List.map_cons]
      constructor
      · intro h; omega
      · intro h; cases h
    | cons c2 s2 =>
      have hs2 : 0 ∉ s2 := fun h => ht (List.mem_cons_of_mem _ h)
      simp only [strcasecmp_codes, List.map_cons, List.cons.injEq]
      split_ifs with hc
      · simp [hc, ih s2 hs1 hs2]
      · constructor
        · intro h; omega
        · intro h; exact absurd h.1 hc

theorem strcasecmp_eq_zero_iff (s t : String) (hs : is_c_string s) (ht : is_c_string t) :
    strcasecmp s t = 0 ↔ eq_ignoring_case s t = true := by
  unfold strcasecmp eq_ignoring_case
  rw [strcasecmp_codes_eq_zero_iff _ _ hs ht, eq_ignoring_case_codes_iff]

theorem eq_ignoring_case_symm {s t : String} (h : eq_ignoring_case s t = true) :
    eq_ignoring_case t s = true := by
  unfold eq_ignoring_case at *
  rw [eq_ignoring_case_codes_iff] at *
  exact h.symm

theorem eq_ignoring_case_trans {s t u : String} (h1 : eq_ignoring_case s t = true)
    (h2 : eq_ignoring_case t u = true) : eq_ignoring_case s u = true := by
  unfold eq_ignoring_case at *
  rw [eq_ignoring_case_codes_iff] at *
  exact h1.trans h2

theorem from_string_eq_lookup (s : String) (hs : is_c_string s) :
    color_channel_order_from_string s = lookup_ignoring_case s color_channel_order_enumerators := by
  have key : ∀ n ∈ accepted_names, (strcasecmp s n = 0 ↔ eq_ignoring_case s n = true) :=
    fun n hn => strcasecmp_eq_zero_iff s n hs (by revert n; decide)
  unfold color_channel_order_from_string
  simp only [key "RGB" (by decide), key "RBG" (by decide), key "GRB" (by decide),
    key "GBR" (by decide), key "BGR" (by decide), key "BRG" (by decide), key "RGBW" (by decide),
    key "RBGW" (by decide), key "GRBW" (by decide), key "GBRW" (by decide),
    key "BGRW" (by decide), key "BRGW" (by decide), key "RGWB" (by decide),
    key "RBWG" (by decide), key "GRWB" (by decide), key "GBWR" (by decide),
    key "BGWR" (by decide), key "BRWG" (by decide), key "RWGB" (by decide),
    key "RWBG" (by decide), key "GWRB" (by decide), key "GWBR" (by decide),
    key "BWGR" (by decide), key "BWRG" (by decide), key "WRGB" (by decide),
    key "WRBG" (by decide), key "WGRB" (by decide), key "WGBR" (by decide),
    key "WBGR" (by decide), key "WBRG" (by decide)]
  rfl

theorem lookup_ignoring_case_congr {s t : String} (h : eq_ignoring_case s t = true)
    (table : List (String × color_channel_order_t)) :
    lookup_ignoring_case s table = lookup_ignoring_case t table := by
  induction table with
  | nil => rfl
  | cons e rest ih =>
    have hc : eq_ignoring_case s e.1 = true ↔ eq_ignoring_case t e.1 = true :=
      ⟨fun hs => eq_ignoring_case_trans (eq_ignoring_case_symm h) hs,
       fun ht => eq_ignoring_case_trans h ht⟩
    simp only [lookup_ignoring_case, hc, ih]

theorem lookup_ignoring_case_none (s : String) (table : List (String × color_channel_order_t))
    (h : ∀ e ∈ table, eq_ignoring_case s e.1 = false) : lookup_ignoring_case s table = -1 := by
  induction table with
  | nil => rfl
  | cons e rest ih =>
    have he : eq_ignoring_case s e.1 = false := h e (List.mem_cons_self _ _)
    simp only [lookup_ignoring_case, he, Bool.false_eq_true, if_false]
    exact ih (fun e' he' => h e' (List.mem_cons_of_mem _ he'))

theorem lookup_ignoring_case_some (s : String) (table : List (String × color_channel_order_t))
    (h : ∃ e ∈ table, eq_ignoring_case s e.1 = true) :
    ∃ e ∈ table, eq_ignoring_case s e.1 = true ∧ lookup_ignoring_case s table = e.2 := by
  induction table with
  | nil => obtain ⟨e, he, _⟩ := h; cases he
  | cons e rest ih =>
    by_cases hc : eq_ignoring_case s e.1 = true
    · exact ⟨e, List.mem_cons_self _ _, hc, by simp only [lookup_ignoring_case, hc, if_true]⟩
    · obtain ⟨e', he', hm⟩ := h
      have hrest : ∃ e ∈ rest, eq_ignoring_case s e.1 = true := by
        rcases List.mem_cons.mp he' with heq | hmem
        · subst heq; exact absurd hm hc
        · exact ⟨e', hmem, hm⟩
      obtain ⟨e2, hmem, hm2, hl⟩ := ih hrest
      exact ⟨e2, List.mem_cons_of_mem _ hmem, hm2, by
        simp only [lookup_ignoring_case, hc, if_false]; exact hl⟩

theorem lookup_ignoring_case_cases (s : String) (table : List (String × color_channel_order_t)) :
    (lookup_ignoring_case s table = -1 ∧ ∀ e ∈ table, eq_ignoring_case s e.1 = false) ∨
    (∃ e ∈ table, eq_ignoring_case s e.1 = true ∧ lookup_ignoring_case s table = e.2) := by
  by_cases h : ∃ e ∈ table, eq_ignoring_case s e.1 = true
  · exact Or.inr (lookup_ignoring_case_some s table h)
  · have h' : ∀ e ∈ table, eq_ignoring_case s e.1 = false := by
      intro e he
      cases hc : eq_ignoring_case s e.1 with
      | false => rfl
      | true => exact absurd ⟨e, he, hc⟩ h
    exact Or.inl ⟨lookup_ignoring_case_none s table h', h'⟩

theorem enumerators_names : color_channel_order_enumerators.map (·.1) = accepted_names := by
  decide

theorem enumerators_values : color_channel_order_enumerators.map (·.2) = color_channel_orders := by
  decide

theorem enumerator_name_of_mem :
    ∀ e ∈ color_channel_order_enumerators, enumerator_name e.2 = e.1 := by
  decide

theorem enumerator_mem_of_order :
    ∀ o ∈ color_channel_orders, (enumerator_name o, o) ∈ color_channel_order_enumerators := by
  decide

theorem from_string_enumerator_name :
    ∀ o ∈ color_channel_orders, color_channel_order_from_string (enumerator_name o) = o := by
  decide

theorem enumerator_name_is_c_string :
    ∀ o ∈ color_channel_orders, is_c_string (enumerator_name o) := by
  decide

/-- A valid parse result comes from a name that matches the input ignoring case. -/
theorem from_string_valid (s : String) (hs : is_c_string s)
    (h : color_channel_order_from_string s ∈ color_channel_orders) :
    eq_ignoring_case s (enumerator_name (color_channel_order_from_string s)) = true := by
  rw [from_string_eq_lookup s hs] at h ⊢
  rcases lookup_ignoring_case_cases s color_channel_order_enumerators with ⟨h1, _⟩ | ⟨e, he, hm, hl⟩
  · rw [h1] at h; exact absurd h (by decide)
  · rw [hl, enumerator_name_of_mem e he]; exact hm

/-! ## Channel-order names: parsing and printing -/

/-- C1, as amended: for every one of the thirty identifiers other than the six
`COLOR_ORDER_RGBW` .. `COLOR_ORDER_BRGW`, parsing the canonical name gives the
identifier back; for those six the canonical name is the three-letter name and
parsing it gives the corresponding identifier among `COLOR_ORDER_RGB` ..
`COLOR_ORDER_BRG`, six places earlier in the enumeration. -/
theorem round_trip_except_w_suffix (o : color_channel_order_t) (ho : o ∈ color_channel_orders) :
    (o ∉ w_suffix_orders →
      color_channel_order_from_string (color_channel_order_to_string o) = o) ∧
    (o ∈ w_suffix_orders →
      color_channel_order_from_string (color_channel_order_to_string o) = o - 6 ∧
      o - 6 ∈ plain_orders) := by
  revert o
  decide

/-- C1, witness of the amended round trip at `COLOR_ORDER_GBWR` and at
`COLOR_ORDER_GBRW`. -/
theorem round_trip_except_w_suffix_witness :
    color_channel_order_from_string (color_channel_order_to_string COLOR_ORDER_GBWR)
      = COLOR_ORDER_GBWR ∧
    color_channel_order_from_string (color_channel_order_to_string COLOR_ORDER_GBRW)
      = COLOR_ORDER_GBR :=
  ⟨(round_trip_except_w_suffix COLOR_ORDER_GBWR (by decide)).1 (by decide),
   ((round_trip_except_w_suffix COLOR_ORDER_GBRW (by decide)).2 (by decide)).1⟩

/-- C1, counterexample: `COLOR_ORDER_RGBW` is one of the thirty identifiers, its
canonical name is "RGB", and parsing that name gives `COLOR_ORDER_RGB`, which is
a different identifier. -/
theorem round_trip_fails_at_RGBW :
    COLOR_ORDER_RGBW ∈ color_channel_orders ∧
    color_channel_order_to_string COLOR_ORDER_RGBW = "RGB" ∧
    color_channel_order_from_string (color_channel_order_to_string COLOR_ORDER_RGBW)
      = COLOR_ORDER_RGB ∧
    color_channel_order_from_string (color_channel_order_to_string COLOR_ORDER_RGBW)
      ≠ COLOR_ORDER_RGBW := by
  decide

/-- C6, as amended: for each of the six permutations `P` of the letters R, G, B,
`P ++ "W"` parses to an identifier of its own, six places after the one `P`
parses to; the two identifiers differ and have the same canonical name `P`. -/
theorem w_suffix_parses_to_own_identifier (P : String) (hP : P ∈ rgb_permutations) :
    color_channel_order_from_string P ∈ plain_orders ∧
    color_channel_order_from_string (P ++ "W") ∈ w_suffix_orders ∧
    color_channel_order_from_string (P ++ "W") = color_channel_order_from_string P + 6 ∧
    color_channel_order_from_string (P ++ "W") ≠ color_channel_order_from_string P ∧
    color_channel_order_to_string (color_channel_order_from_string (P ++ "W")) = P ∧
    color_channel_order_to_string (color_channel_order_from_string P) = P := by
  revert P
  decide

/-- C6, witness of the amended statement at the permutation "GBR". -/
theorem w_suffix_parses_to_own_identifier_witness :
    color_channel_order_from_string "GBR" = COLOR_ORDER_GBR ∧
    color_channel_order_from_string ("GBR" ++ "W") = COLOR_ORDER_GBRW ∧
    color_channel_order_to_string (color_channel_order_from_string ("GBR" ++ "W")) = "GBR" := by
  have h := w_suffix_parses_to_own_identifier "GBR" (by decide)
  exact ⟨by decide, by decide, h.2.2.2.2.1⟩

/-- C6, counterexample: "RGB" is one of the six permutations, and "RGBW" parses
to `COLOR_ORDER_RGBW` while "RGB" parses to `COLOR_ORDER_RGB`. -/
theorem w_suffix_alias_fails_at_RGB :
    "RGB" ∈ rgb_permutations ∧
    color_channel_order_from_string ("RGB" ++ "W") = COLOR_ORDER_RGBW ∧
    color_channel_order_from_string "RGB" = COLOR_ORDER_RGB ∧
    color_channel_order_from_string ("RGB" ++ "W") ≠ color_channel_order_from_string "RGB" := by
  decide

/-- C7: a C string that equals none of the thirty accepted names ignoring ASCII
letter case parses to the failure value `-1`, which is none of the thirty
identifiers; a C string that equals one of them parses to one of the thirty
identifiers. -/
theorem unknown_names_rejected (s : String) (hs : is_c_string s) :
    ((∀ n ∈ accepted_names, eq_ignoring_case s n = false) →
      color_channel_order_from_string s = -1 ∧
      color_channel_order_from_string s ∉ color_channel_orders) ∧
    ((∃ n ∈ accepted_names, eq_ignoring_case s n = true) →
      color_channel_order_from_string s ∈ color_channel_orders) := by
  rw [from_string_eq_lookup s hs]
  constructor
  · intro h
    have h' : ∀ e ∈ color_channel_order_enumerators, eq_ignoring_case s e.1 = false := by
      intro e he
      apply h
      rw [← enumerators_names]
      exact List.mem_map_of_mem _ he
    rw [lookup_ignoring_case_none s _ h']
    exact ⟨rfl, by decide⟩
  · rintro ⟨n, hn, hm⟩
    rw [← enumerators_names] at hn
    obtain ⟨e, he, rfl⟩ := List.mem_map.mp hn
    obtain ⟨e', he', _, hl⟩ := lookup_ignoring_case_some s _ ⟨e, he, hm⟩
    rw [hl, ← enumerators_values]
    exact List.mem_map_of_mem _ he'

/-- C7, witness: "XYZ" is a C string that matches none of the accepted names;
it parses to `-1`, which is none of the thirty identifiers. -/
theorem unknown_names_rejected_witness :
    color_channel_order_from_string "XYZ" = -1 ∧
    color_channel_order_from_string "XYZ" ∉ color_channel_orders :=
  (unknown_names_rejected "XYZ" (by decide)).1 (by decide)

/-- C8: for C strings `s` and `t`: if `s` equals the enumerator name of one of
the thirty identifiers up to ASCII letter case, `s` parses to that identifier;
strings that differ only in letter case parse alike; two strings with the same
valid parse result differ only in letter case; and every identifier is the parse
result of its enumerator name. -/
theorem case_insensitive_exact_match (s t : String) (hs : is_c_string s) (ht : is_c_string t) :
    (∀ o ∈ color_channel_orders, eq_ignoring_case s (enumerator_name o) = true →
      color_channel_order_from_string s = o) ∧
    (eq_ignoring_case s t = true →
      color_channel_order_from_string s = color_channel_order_from_string t) ∧
    (color_channel_order_from_string s ∈ color_channel_orders →
      color_channel_order_from_string s = color_channel_order_from_string t →
      eq_ignoring_case s t = true) ∧
    (∀ o ∈ color_channel_orders, color_channel_order_from_string (enumerator_name o) = o) := by
  have congr : ∀ a b : String, is_c_string a → is_c_string b → eq_ignoring_case a b = true →
      color_channel_order_from_string a = color_channel_order_from_string b := by
    intro a b ha hb hab
    rw [from_string_eq_lookup a ha, from_string_eq_lookup b hb]
    exact lookup_ignoring_case_congr hab _
  refine ⟨?_, congr s t hs ht, ?_, from_string_enumerator_name⟩
  · intro o ho hm
    rw [congr s _ hs (enumerator_name_is_c_string o ho) hm]
    exact from_string_enumerator_name o ho
  · intro hv heq
    have h1 := from_string_valid s hs hv
    have h2 := from_string_valid t ht (heq ▸ hv)
    rw [← heq] at h2
    exact eq_ignoring_case_trans h1 (eq_ignoring_case_symm h2)

/-- C8, witness: "grbW" equals the enumerator name "GRBW" up to letter case and
parses to `COLOR_ORDER_GRBW`, as "GRBW" does. -/
theorem case_insensitive_exact_match_witness :
    color_channel_order_from_string "grbW" = COLOR_ORDER_GRBW ∧
    color_channel_order_from_string "grbW" = color_channel_order_from_string "GRBW" :=
  ⟨(case_insensitive_exact_match "grbW" "GRBW" (by decide) (by decide)).1
      COLOR_ORDER_GRBW (by decide) (by decide),
   (case_insensitive_exact_match "grbW" "GRBW" (by decide) (by decide)).2.1 (by decide)⟩

/-- C9: for every one of the thirty identifiers, the canonical name is not the
placeholder "<invalid color_channel_order>" and parses to one of the thirty
identifiers, never to the failure value `-1`. -/
theorem to_string_accepted_by_from_string (o : color_channel_order_t)
    (ho : o ∈ color_channel_orders) :
    color_channel_order_from_string (color_channel_order_to_string o) ∈ color_channel_orders ∧
    color_channel_order_from_string (color_channel_order_to_string o) ≠ -1 ∧
    color_channel_order_to_string o ≠ "<invalid color_channel_order>" ∧
    color_channel_order_to_string o ∈ accepted_names := by
  revert o
  decide

/-- C9, witness at `COLOR_ORDER_BRGW`. -/
theorem to_string_accepted_by_from_string_witness :
    color_channel_order_from_string (color_channel_order_to_string COLOR_ORDER_BRGW)
      ∈ color_channel_orders ∧
    color_channel_order_from_string (color_channel_order_to_string COLOR_ORDER_BRGW) ≠ -1 ∧
    color_channel_order_to_string COLOR_ORDER_BRGW ≠ "<invalid color_channel_order>" ∧
    color_channel_order_to_string COLOR_ORDER_BRGW ∈ accepted_names :=
  to_string_accepted_by_from_string COLOR_ORDER_BRGW (by decide)

/-! ## Writing a pixel -/

theorem mem_plain_orders {o : color_channel_order_t} (ho : o ∈ plain_orders) :
    o = 0 ∨ o = 1 ∨ o = 2 ∨ o = 3 ∨ o = 4 ∨ o = 5 := by
  simpa [plain_orders, COLOR_ORDER_RGB, COLOR_ORDER_RBG, COLOR_ORDER_GRB, COLOR_ORDER_GBR,
    COLOR_ORDER_BGR, COLOR_ORDER_BRG] using ho

theorem mem_w_suffix_orders {o : color_channel_order_t} (ho : o ∈ w_suffix_orders) :
    o = 6 ∨ o = 7 ∨ o = 8 ∨ o = 9 ∨ o = 10 ∨ o = 11 := by
  simpa [w_suffix_orders, COLOR_ORDER_RGBW, COLOR_ORDER_RBGW, COLOR_ORDER_GRBW,
    COLOR_ORDER_GBRW, COLOR_ORDER_BGRW, COLOR_ORDER_BRGW] using ho

theorem four_letter_orders_eq :
    four_letter_orders =
      [12, 13, 14, 15, 16, 17, 18, 19, 20, 21, 22, 23, 24, 25, 26, 27, 28, 29] := by
  decide

theorem three_letter_orders_eq : three_letter_orders = plain_orders ++ w_suffix_orders := by
  decide

theorem four_letter_names_perm :
    ∀ o ∈ four_letter_orders, o ≠ COLOR_ORDER_BGWR →
      (color_channel_order_to_string o).toList.Perm "RGBW".toList := by
  decide

theorem slots_perm_of_named (name : String) (hp : name.toList.Perm "RGBW".toList)
    (q : ledscape_pixel_t) (r g b w : Nat)
    (h : (slots q).map some = named_channels name r g b w) : (slots q).Perm [r, g, b, w] := by
  have h2 : slots q = name.toList.map (fun l => (channel r g b w l).getD 0) := by
    have h3 := congrArg (List.map (fun x : Option Nat => x.getD 0)) h
    simpa [named_channels, List.map_map, Function.comp_def] using h3
  rw [h2]
  exact List.Perm.map (fun l => (channel r g b w l).getD 0) hp

/-- C2: `COLOR_ORDER_BGWR` is one of the eighteen identifiers with a four-letter
canonical name, "BGWR"; with (r,g,b,w) = (1,2,3,4) the code stores (3,2,4,2) in
slots a,b,c,d, whereas the letters B,G,W,R name (3,2,4,1): slot d holds g, not
r, and the four slots are not a permutation of r,g,b,w.  Every other of the
eighteen identifiers stores the channels named by the four letters of its
canonical name, a permutation of r,g,b,w. -/
theorem name_to_slot_fails_at_BGWR :
    COLOR_ORDER_BGWR ∈ four_letter_orders ∧
    color_channel_order_to_string COLOR_ORDER_BGWR = "BGWR" ∧
    slots (ledscape_pixel_set_color ⟨0, 0, 0, 0⟩ COLOR_ORDER_BGWR 1 2 3 4) = [3, 2, 4, 2] ∧
    named_channels (color_channel_order_to_string COLOR_ORDER_BGWR) 1 2 3 4
      = [some 3, some 2, some 4, some 1] ∧
    ¬ (slots (ledscape_pixel_set_color ⟨0, 0, 0, 0⟩ COLOR_ORDER_BGWR 1 2 3 4)).Perm [1, 2, 3, 4] ∧
    (∀ o ∈ four_letter_orders, o ≠ COLOR_ORDER_BGWR →
      ∀ (p : ledscape_pixel_t) (r g b w : Nat),
        (slots (ledscape_pixel_set_color p o r g b w)).map some
          = named_channels (color_channel_order_to_string o) r g b w ∧
        (slots (ledscape_pixel_set_color p o r g b w)).Perm [r, g, b, w]) := by
  refine ⟨by decide, by decide, by decide, by decide, by decide, ?_⟩
  intro o ho hne p r g b w
  have hp := four_letter_names_perm o ho hne
  have h1 : (slots (ledscape_pixel_set_color p o r g b w)).map some
      = named_channels (color_channel_order_to_string o) r g b w := by
    rw [four_letter_orders_eq] at ho
    simp only [List.mem_cons, List.mem_singleton, List.not_mem_nil, or_false] at ho
    rcases ho with rfl | rfl | rfl | rfl | rfl | rfl | rfl | rfl | rfl | rfl | rfl | rfl | rfl
      | rfl | rfl | rfl | rfl | rfl
    all_goals first
      | exact absurd rfl hne
      | rfl
  exact ⟨h1, slots_perm_of_named _ hp _ r g b w h1⟩

/-- C3: for each of the six identifiers `COLOR_ORDER_RGB` .. `COLOR_ORDER_BRG`,
every prior pixel `p` and all r,g,b,w, the call stores in slots a,b,c the
channels named by the first, second and third letter of the identifier and
leaves slot d equal to `p.d`. -/
theorem three_channel_orders_keep_slot_d (o : color_channel_order_t) (ho : o ∈ plain_orders)
    (p : ledscape_pixel_t) (r g b w : Nat) :
    [some (ledscape_pixel_set_color p o r g b w).a,
     some (ledscape_pixel_set_color p o r g b w).b,
     some (ledscape_pixel_set_color p o r g b w).c] = named_channels (enumerator_name o) r g b w ∧
    (ledscape_pixel_set_color p o r g b w).d = p.d := by
  rcases mem_plain_orders ho with rfl | rfl | rfl | rfl | rfl | rfl
  all_goals exact ⟨rfl, rfl⟩

/-- C3, witness: `COLOR_ORDER_RGB` with (r,g,b,w) = (1,2,3,4) on a pixel whose
slot d holds 77 gives (1,2,3,77): slot d is neither zeroed nor set to w. -/
theorem three_channel_orders_keep_slot_d_witness :
    ledscape_pixel_set_color ⟨9, 9, 9, 77⟩ COLOR_ORDER_RGB 1 2 3 4 = ⟨1, 2, 3, 77⟩ ∧
    (ledscape_pixel_set_color ⟨9, 9, 9, 77⟩ COLOR_ORDER_RGB 1 2 3 4).d = 77 :=
  ⟨by decide, (three_channel_orders_keep_slot_d COLOR_ORDER_RGB (by decide) ⟨9, 9, 9, 77⟩
    1 2 3 4).2⟩

/-- C4: for each of the six identifiers named XYZW (`COLOR_ORDER_RGBW` ..
`COLOR_ORDER_BRGW`), every prior pixel and all r,g,b,w, the call stores channel
X in slot a, channel Y in slot b, w in slot c and channel Z in slot d. -/
theorem golden_table_w_suffix (o : color_channel_order_t) (ho : o ∈ w_suffix_orders)
    (p : ledscape_pixel_t) (r g b w : Nat) :
    ∃ X Y Z : Char, (enumerator_name o).toList = [X, Y, Z, 'W'] ∧
      some (ledscape_pixel_set_color p o r g b w).a = channel r g b w X ∧
      some (ledscape_pixel_set_color p o r g b w).b = channel r g b w Y ∧
      (ledscape_pixel_set_color p o r g b w).c = w ∧
      some (ledscape_pixel_set_color p o r g b w).d = channel r g b w Z := by
  rcases mem_w_suffix_orders ho with rfl | rfl | rfl | rfl | rfl | rfl
  · exact ⟨'R', 'G', 'B', rfl, rfl, rfl, rfl, rfl⟩
  · exact ⟨'R', 'B', 'G', rfl, rfl, rfl, rfl, rfl⟩
  · exact ⟨'G', 'R', 'B', rfl, rfl, rfl, rfl, rfl⟩
  · exact ⟨'G', 'B', 'R', rfl, rfl, rfl, rfl, rfl⟩
  · exact ⟨'B', 'G', 'R', rfl, rfl, rfl, rfl, rfl⟩
  · exact ⟨'B', 'R', 'G', rfl, rfl, rfl, rfl, rfl⟩

/-- C4, witness: `COLOR_ORDER_GBRW` with (r,g,b,w) = (1,2,3,4) produces
(a,b,c,d) = (2,3,4,1). -/
theorem golden_table_w_suffix_witness :
    slots (ledscape_pixel_set_color ⟨0, 0, 0, 0⟩ COLOR_ORDER_GBRW 1 2 3 4) = [2, 3, 4, 1] ∧
    ∃ X Y Z : Char, (enumerator_name COLOR_ORDER_GBRW).toList = [X, Y, Z, 'W'] ∧
      some (ledscape_pixel_set_color ⟨0, 0, 0, 0⟩ COLOR_ORDER_GBRW 1 2 3 4).a
        = channel 1 2 3 4 X ∧
      some (ledscape_pixel_set_color ⟨0, 0, 0, 0⟩ COLOR_ORDER_GBRW 1 2 3 4).b
        = channel 1 2 3 4 Y ∧
      (ledscape_pixel_set_color ⟨0, 0, 0, 0⟩ COLOR_ORDER_GBRW 1 2 3 4).c = 4 ∧
      some (ledscape_pixel_set_color ⟨0, 0, 0, 0⟩ COLOR_ORDER_GBRW 1 2 3 4).d
        = channel 1 2 3 4 Z :=
  ⟨by decide, golden_table_w_suffix COLOR_ORDER_GBRW (by decide) ⟨0, 0, 0, 0⟩ 1 2 3 4⟩

/-- C5, as amended: of the twelve identifiers whose canonical name is a
three-letter permutation, the six `COLOR_ORDER_RGB` .. `COLOR_ORDER_BRG` produce a
pixel that does not depend on w; the six `COLOR_ORDER_RGBW` .. `COLOR_ORDER_BRGW`
store w in slot c, and only their slots a, b and d do not depend on w. -/
theorem w_not_emitted_by_plain_orders (o : color_channel_order_t)
    (ho : o ∈ three_letter_orders) (p : ledscape_pixel_t) (r g b w1 w2 : Nat) :
    (o ∈ plain_orders →
      ledscape_pixel_set_color p o r g b w1 = ledscape_pixel_set_color p o r g b w2) ∧
    (o ∈ w_suffix_orders →
      (ledscape_pixel_set_color p o r g b w1).c = w1 ∧
      (ledscape_pixel_set_color p o r g b w2).c = w2 ∧
      (ledscape_pixel_set_color p o r g b w1).a = (ledscape_pixel_set_color p o r g b w2).a ∧
      (ledscape_pixel_set_color p o r g b w1).b = (ledscape_pixel_set_color p o r g b w2).b ∧
      (ledscape_pixel_set_color p o r g b w1).d = (ledscape_pixel_set_color p o r g b w2).d) ∧
    (o ∈ plain_orders ∨ o ∈ w_suffix_orders) := by
  rw [three_letter_orders_eq, List.mem_append] at ho
  refine ⟨fun h => ?_, fun h => ?_, ho⟩
  · rcases mem_plain_orders h with rfl | rfl | rfl | rfl | rfl | rfl
    all_goals rfl
  · rcases mem_w_suffix_orders h with rfl | rfl | rfl | rfl | rfl | rfl
    all_goals exact ⟨rfl, rfl, rfl, rfl, rfl⟩

/-- C5, witness of the amended statement: `COLOR_ORDER_BGR` gives the same pixel
for w = 0 and w = 255. -/
theorem w_not_emitted_by_plain_orders_witness :
    ledscape_pixel_set_color ⟨5, 6, 7, 8⟩ COLOR_ORDER_BGR 1 2 3 0
      = ledscape_pixel_set_color ⟨5, 6, 7, 8⟩ COLOR_ORDER_BGR 1 2 3 255 :=
  (w_not_emitted_by_plain_orders COLOR_ORDER_BGR (by decide) ⟨5, 6, 7, 8⟩ 1 2 3 0 255).1
    (by decide)

/-- C5, counterexample: `COLOR_ORDER_RGBW` has the three-letter canonical name
"RGB", and the pixels it produces for w = 0 and for w = 255 differ (in slot c). -/
theorem w_emitted_by_RGBW :
    COLOR_ORDER_RGBW ∈ three_letter_orders ∧
    color_channel_order_to_string COLOR_ORDER_RGBW = "RGB" ∧
    ledscape_pixel_set_color ⟨0, 0, 0, 0⟩ COLOR_ORDER_RGBW 1 2 3 0 = ⟨1, 2, 0, 3⟩ ∧
    ledscape_pixel_set_color ⟨0, 0, 0, 0⟩ COLOR_ORDER_RGBW 1 2 3 255 = ⟨1, 2, 255, 3⟩ ∧
    ledscape_pixel_set_color ⟨0, 0, 0, 0⟩ COLOR_ORDER_RGBW 1 2 3 0
      ≠ ledscape_pixel_set_color ⟨0, 0, 0, 0⟩ COLOR_ORDER_RGBW 1 2 3 255 := by
  decide

/-! ## Frame addressing -/

theorem ledscape_frame_null_iff (leds : ledscape_t) (frame : Nat) (h : leds.pru0.ddr ≠ NULL) :
    ledscape_frame leds frame = NULL ↔ frame ≥ 2 := by
  unfold ledscape_frame NULL at *
  split_ifs with hf
  · simp [hf]
  · constructor
    · intro h0; omega
    · intro h2; exact absurd h2 hf

theorem ledscape_frame_offset (leds : ledscape_t) (frame : Nat) (hf : frame < 2)
    (hs : leds.frame_size < 2 ^ 32) :
    ledscape_frame leds frame = leds.pru0.ddr + frame * leds.frame_size := by
  unfold ledscape_frame mul32
  have h2 : ¬ frame ≥ 2 := by omega
  rw [if_neg h2]
  have hcases : frame = 0 ∨ frame = 1 := by omega
  rcases hcases with rfl | rfl
  · simp
  · have hs2 : leds.frame_size < 4294967296 := by norm_num at hs; exact hs
    simp [Nat.mod_eq_of_lt hs2]

theorem init_device_fields (pru0 pru1 : pru_t) (num_pixels : Nat) (f0 f1 : String)
    (responses_0 responses_1 : List Nat) (leds : ledscape_t)
    (h : (ledscape_init_with_programs pru0 pru1 num_pixels f0 f1 responses_0
      responses_1).device = some leds) :
    leds.pru0 = pru0 ∧ leds.num_pixels = num_pixels ∧
    leds.frame_size = (num_pixels * 48 * 4) % 2 ^ 32 := by
  have hfs : mul32 (mul32 num_pixels LEDSCAPE_NUM_STRIPS) 4 = (num_pixels * 48 * 4) % 2 ^ 32 := by
    unfold mul32 LEDSCAPE_NUM_STRIPS
    norm_num
  unfold ledscape_init_with_programs at h
  simp only at h
  split_ifs at h with hcap
  · simp [init_outcome.device] at h
  · split at h
    · simp [init_outcome.device] at h
    · split at h
      · simp [init_outcome.device] at h
      · simp only [init_outcome.device, Option.some.injEq] at h
        subst h
        exact ⟨rfl, rfl, hfs⟩

/-- C10: `ledscape_frame` on a device with a non-null mapped base returns
`NULL` exactly when the slot is 2 or more; for slot 0 and 1 it returns the base
plus slot times `frame_size`, so the two views differ by `frame_size`; a device
returned by `ledscape_init_with_programs` has `frame_size` equal to
`num_pixels * 48 * 4` reduced modulo 2^32.  At `num_pixels = 22369622` with a
shared region of 262144 bytes the product is 4294967424, the bring-up returns a
device whose `frame_size` is 128, and the two views differ by 128. -/
theorem frame_addressing_frame_size_wraps :
    (∀ (leds : ledscape_t) (frame : Nat), leds.pru0.ddr ≠ NULL →
      (ledscape_frame leds frame = NULL ↔ frame ≥ 2)) ∧
    (∀ (leds : ledscape_t) (frame : Nat), frame < 2 → leds.frame_size < 2 ^ 32 →
      ledscape_frame leds frame = leds.pru0.ddr + frame * leds.frame_size) ∧
    (∀ (leds : ledscape_t), leds.frame_size < 2 ^ 32 →
      ledscape_frame leds 1 - ledscape_frame leds 0 = leds.frame_size) ∧
    (∀ (pru0 pru1 : pru_t) (num_pixels : Nat) (f0 f1 : String) (responses_0 responses_1 : List Nat)
      (leds : ledscape_t),
      (ledscape_init_with_programs pru0 pru1 num_pixels f0 f1 responses_0 responses_1).device
        = some leds →
      leds.frame_size = (num_pixels * 48 * 4) % 2 ^ 32 ∧
      (num_pixels * 48 * 4 < 2 ^ 32 → leds.frame_size = num_pixels * 48 * 4)) ∧
    22369622 < 2 ^ 32 ∧
    22369622 * 48 * 4 = 4294967424 ∧
    (ledscape_init_with_programs ⟨3064987648, 2657878016, 262144⟩ ⟨3064987648, 2657878016, 262144⟩
      22369622 "pru0.bin" "pru1.bin" [1] [1]).device.map ledscape_t.frame_size = some 128 ∧
    (ledscape_init_with_programs ⟨3064987648, 2657878016, 262144⟩ ⟨3064987648, 2657878016, 262144⟩
      22369622 "pru0.bin" "pru1.bin" [1] [1]).device.map
        (fun leds => ledscape_frame leds 1 - ledscape_frame leds 0) = some 128 := by
  refine ⟨ledscape_frame_null_iff, ledscape_frame_offset, ?_, ?_, by decide, by decide,
    by decide, by decide⟩
  · intro leds hs
    rw [ledscape_frame_offset leds 1 (by omega) hs, ledscape_frame_offset leds 0 (by omega) hs]
    omega
  · intro pru0 pru1 num_pixels f0 f1 responses_0 responses_1 leds h
    have hf := (init_device_fields pru0 pru1 num_pixels f0 f1 responses_0 responses_1 leds h).2.2
    exact ⟨hf, fun hlt => by rw [hf, Nat.mod_eq_of_lt hlt]⟩

/-! ## Bring-up -/

theorem poll_response_eq_none (k : Nat) (l : List Nat) :
    poll_response k l = none ↔ ∀ x ∈ l, x = 0 := by
  induction l with
  | nil => simp [poll_response]
  | cons v rest ih =>
    unfold poll_response
    by_cases hv : v = 0
    · subst hv
      simp only [ne_eq, not_true_eq_false, if_false, List.mem_cons, forall_eq_or_imp, true_and]
      rw [← ih]
      cases poll_response k rest with
      | none => simp
      | some r => simp
    · simp [hv]

theorem poll_response_eq_some (k : Nat) (l : List Nat) (v : Nat) (loads : List event)
    (h : poll_response k l = some (v, loads)) :
    ∃ zeros rest, l = zeros ++ v :: rest ∧ (∀ z ∈ zeros, z = 0) ∧ v ≠ 0 ∧
      loads = zeros.map (event.load_response k) ++ [event.load_response k v] := by
  induction l generalizing loads with
  | nil => simp [poll_response] at h
  | cons x rest ih =>
    unfold poll_response at h
    by_cases hx : x = 0
    · subst hx
      simp only [ne_eq, not_true_eq_false, if_false] at h
      cases hp : poll_response k rest with
      | none => rw [hp] at h; simp at h
      | some r =>
        obtain ⟨v2, loads2⟩ := r
        rw [hp] at h
        simp only [Option.some.injEq, Prod.mk.injEq] at h
        obtain ⟨hv, hl⟩ := h
        subst hv
        obtain ⟨zeros, rest2, h1, h2, h3, h4⟩ := ih loads2 hp
        refine ⟨0 :: zeros, rest2, by simp [h1], ?_, h3, ?_⟩
        · intro z hz
          rcases List.mem_cons.mp hz with rfl | hz2
          · rfl
          · exact h2 z hz2
        · rw [← hl, h4]; rfl
    · simp only [ne_eq, hx, not_false_eq_true, if_true, Option.some.injEq, Prod.mk.injEq] at h
      obtain ⟨hv, hl⟩ := h
      subst hv
      exact ⟨[], rest, rfl, by simp, hx, by rw [← hl]; rfl⟩

theorem init_of_check_fails (pru0 pru1 : pru_t) (num_pixels : Nat) (f0 f1 : String)
    (responses_0 responses_1 : List Nat) (h : capacity_check_fails pru0 num_pixels) :
    ledscape_init_with_programs pru0 pru1 num_pixels f0 f1 responses_0 responses_1
      = init_outcome.died [event.pru_init 0, event.pru_init 1, event.die] := by
  unfold capacity_check_fails at h
  unfold ledscape_init_with_programs
  simp only [if_pos h]
  rfl

theorem init_of_check_passes (pru0 pru1 : pru_t) (num_pixels : Nat) (f0 f1 : String)
    (responses_0 responses_1 : List Nat) (h : ¬ capacity_check_fails pru0 num_pixels) :
    ledscape_init_with_programs pru0 pru1 num_pixels f0 f1 responses_0 responses_1 =
      match poll_response 0 responses_0 with
      | none => init_outcome.spinning
          (init_log_to_exec0 num_pixels f0 ++ responses_0.map (event.load_response 0))
      | some (response_0, loads_0) =>
        match poll_response 1 responses_1 with
        | none => init_outcome.spinning
            (init_log_to_exec0 num_pixels f0 ++ loads_0 ++ [event.pru_exec 1 f1]
              ++ responses_1.map (event.load_response 1))
        | some (response_1, loads_1) =>
          init_outcome.ready
            { ws281x_0 := { initial_block num_pixels with response := response_0 },
              ws281x_1 := { initial_block num_pixels with response := response_1 },
              pru0 := pru0, pru1 := pru1, pru0_program_filename := f0,
              pru1_program_filename := f1, num_pixels := num_pixels,
              frame_size := mul32 (mul32 num_pixels LEDSCAPE_NUM_STRIPS) 4 }
            (init_log_to_exec0 num_pixels f0 ++ loads_0 ++ [event.pru_exec 1 f1] ++ loads_1) := by
  unfold capacity_check_fails at h
  unfold ledscape_init_with_programs
  simp only [if_neg h]
  rfl

theorem init_log_starts (pru0 pru1 : pru_t) (num_pixels : Nat) (f0 f1 : String)
    (responses_0 responses_1 : List Nat) (h : ¬ capacity_check_fails pru0 num_pixels) :
    ∃ rest, (ledscape_init_with_programs pru0 pru1 num_pixels f0 f1 responses_0
      responses_1).log = init_log_to_exec0 num_pixels f0 ++ rest := by
  rw [init_of_check_passes pru0 pru1 num_pixels f0 f1 responses_0 responses_1 h]
  cases poll_response 0 responses_0 with
  | none => exact ⟨_, rfl⟩
  | some r0 =>
    obtain ⟨v0, l0⟩ := r0
    cases poll_response 1 responses_1 with
    | none => exact ⟨l0 ++ [event.pru_exec 1 f1] ++ responses_1.map (event.load_response 1), by
        simp [init_outcome.log, List.append_assoc]⟩
    | some r1 =>
      obtain ⟨v1, l1⟩ := r1
      exact ⟨l0 ++ [event.pru_exec 1 f1] ++ l1, by simp [init_outcome.log, List.append_assoc]⟩

theorem before_first_exec_init (num_pixels : Nat) (f0 : String) (rest : List event) :
    before_first_exec (init_log_to_exec0 num_pixels f0 ++ rest)
      = (init_log_to_exec0 num_pixels f0).dropLast := by
  rfl

theorem frame_size_product (num_pixels : Nat) :
    mul32 (mul32 num_pixels LEDSCAPE_NUM_STRIPS) 4 = (num_pixels * 48 * 4) % 2 ^ 32 := by
  unfold mul32 LEDSCAPE_NUM_STRIPS
  norm_num

theorem capacity_check_without_wrap (pru0 : pru_t) (num_pixels : Nat)
    (h : 2 * num_pixels * 48 * 4 < 2 ^ 32) :
    capacity_check_fails pru0 num_pixels ↔ 2 * num_pixels * 48 * 4 > pru0.ddr_size := by
  unfold capacity_check_fails
  rw [frame_size_product]
  unfold mul32
  norm_num at h ⊢
  omega

/-- C11: the bring-up takes the `die` branch exactly when the comparison fails
as the code evaluates it, in 32-bit arithmetic; that agrees with the
mathematical product `2 * num_pixels * 48 * 4` exceeding `ddr_size` whenever the
product is below 2^32.  At `num_pixels = 22369622` with `ddr_size = 262144` the
product is 8589934848, which exceeds `ddr_size`, yet the check passes and a
device with `frame_size = 128` is returned. -/
theorem capacity_check_wraps :
    (∀ (pru0 pru1 : pru_t) (num_pixels : Nat) (f0 f1 : String)
      (responses_0 responses_1 : List Nat),
      (∃ log, ledscape_init_with_programs pru0 pru1 num_pixels f0 f1 responses_0 responses_1
        = init_outcome.died log) ↔ capacity_check_fails pru0 num_pixels) ∧
    (∀ (pru0 : pru_t) (num_pixels : Nat), 2 * num_pixels * 48 * 4 < 2 ^ 32 →
      (capacity_check_fails pru0 num_pixels ↔ 2 * num_pixels * 48 * 4 > pru0.ddr_size)) ∧
    22369622 < 2 ^ 32 ∧
    2 * 22369622 * 48 * 4 = 8589934848 ∧
    8589934848 > 262144 ∧
    ¬ capacity_check_fails ⟨3064987648, 2657878016, 262144⟩ 22369622 ∧
    (ledscape_init_with_programs ⟨3064987648, 2657878016, 262144⟩ ⟨3064987648, 2657878016, 262144⟩
      22369622 "pru0.bin" "pru1.bin" [1] [1]).device.map
        (fun leds => (leds.num_pixels, leds.frame_size, leds.pru0.ddr_size))
      = some (22369622, 128, 262144) := by
  refine ⟨?_, capacity_check_without_wrap, by decide, by decide, by decide, by decide, by decide⟩
  intro pru0 pru1 num_pixels f0 f1 responses_0 responses_1
  constructor
  · rintro ⟨log, hlog⟩
    by_contra hc
    rw [init_of_check_passes pru0 pru1 num_pixels f0 f1 responses_0 responses_1 hc] at hlog
    cases h0 : poll_response 0 responses_0 with
    | none => rw [h0] at hlog; simp at hlog
    | some r0 =>
      obtain ⟨v0, l0⟩ := r0
      rw [h0] at hlog
      cases h1 : poll_response 1 responses_1 with
      | none => rw [h1] at hlog; simp at hlog
      | some r1 =>
        obtain ⟨v1, l1⟩ := r1
        rw [h1] at hlog
        simp at hlog
  · intro hc
    exact ⟨_, init_of_check_fails pru0 pru1 num_pixels f0 f1 responses_0 responses_1 hc⟩

theorem capacity_check_of_small_frame (pru0 : pru_t) (num_pixels : Nat)
    (h : mul32 (mul32 num_pixels LEDSCAPE_NUM_STRIPS) 4 < 2 ^ 31) :
    capacity_check_fails pru0 num_pixels
      ↔ 2 * mul32 (mul32 num_pixels LEDSCAPE_NUM_STRIPS) 4 > pru0.ddr_size := by
  unfold capacity_check_fails
  have h2 : mul32 2 (mul32 (mul32 num_pixels LEDSCAPE_NUM_STRIPS) 4)
      = 2 * mul32 (mul32 num_pixels LEDSCAPE_NUM_STRIPS) 4 := by
    generalize mul32 (mul32 num_pixels LEDSCAPE_NUM_STRIPS) 4 = fs at h
    unfold mul32
    exact Nat.mod_eq_of_lt (by omega)
  rw [h2]

theorem died_log_has_no_effect :
    ∀ e ∈ [event.pru_init 0, event.pru_init 1, event.die],
      e.is_pru_gpio = false ∧ e.is_pru_exec = false ∧ e.is_store = false := by
  intro e he
  simp only [List.mem_cons, List.mem_singleton, List.not_mem_nil, or_false] at he
  rcases he with rfl | rfl | rfl
  all_goals exact ⟨rfl, rfl, rfl⟩

/-- C12: with `frame_size` the value the code computes for `num_pixels`, as long
as `frame_size` is below 2^31 a bring-up with `2 * frame_size > ddr_size` logs
the two `pru_init` calls and `die` and nothing else: no GPIO configuration, no
program start, no store to a command block; and a bring-up that passes the
check configures as outputs exactly the 15, 10, 21 and 6 pins of `gpios0` ..
`gpios3` before the first program start, 52 GPIO calls in all.  At `num_pixels
= 11184811` with `ddr_size = 262144` the returned device has `frame_size =
2147483712`, so `2 * frame_size = 4294967424` exceeds `ddr_size`; the code's
32-bit product wraps to 128, `die` is not called, and the log holds 52 GPIO
calls, 2 program starts and 2 stores to the command blocks. -/
theorem fail_fast_bring_up_check_wraps :
    (∀ (pru0 pru1 : pru_t) (num_pixels : Nat) (f0 f1 : String)
      (responses_0 responses_1 : List Nat),
      mul32 (mul32 num_pixels LEDSCAPE_NUM_STRIPS) 4 < 2 ^ 31 →
      2 * mul32 (mul32 num_pixels LEDSCAPE_NUM_STRIPS) 4 > pru0.ddr_size →
      ledscape_init_with_programs pru0 pru1 num_pixels f0 f1 responses_0 responses_1
        = init_outcome.died [event.pru_init 0, event.pru_init 1, event.die] ∧
      ∀ e ∈ (ledscape_init_with_programs pru0 pru1 num_pixels f0 f1 responses_0
        responses_1).log, e.is_pru_gpio = false ∧ e.is_pru_exec = false ∧ e.is_store = false) ∧
    (∀ (pru0 pru1 : pru_t) (num_pixels : Nat) (f0 f1 : String)
      (responses_0 responses_1 : List Nat), ¬ capacity_check_fails pru0 num_pixels →
      (∃ rest, (ledscape_init_with_programs pru0 pru1 num_pixels f0 f1 responses_0
        responses_1).log
          = before_first_exec (ledscape_init_with_programs pru0 pru1 num_pixels f0 f1
              responses_0 responses_1).log ++ event.pru_exec 0 f0 :: rest) ∧
      output_pins 0 (before_first_exec (ledscape_init_with_programs pru0 pru1 num_pixels f0 f1
        responses_0 responses_1).log) = gpios0 ∧
      output_pins 1 (before_first_exec (ledscape_init_with_programs pru0 pru1 num_pixels f0 f1
        responses_0 responses_1).log) = gpios1 ∧
      output_pins 2 (before_first_exec (ledscape_init_with_programs pru0 pru1 num_pixels f0 f1
        responses_0 responses_1).log) = gpios2 ∧
      output_pins 3 (before_first_exec (ledscape_init_with_programs pru0 pru1 num_pixels f0 f1
        responses_0 responses_1).log) = gpios3 ∧
      gpios0.length = 15 ∧ gpios1.length = 10 ∧ gpios2.length = 21 ∧ gpios3.length = 6 ∧
      ((before_first_exec (ledscape_init_with_programs pru0 pru1 num_pixels f0 f1
        responses_0 responses_1).log).filter event.is_pru_gpio).length = 52) ∧
    11184811 < 2 ^ 32 ∧
    (ledscape_init_with_programs ⟨3064987648, 2657878016, 262144⟩ ⟨3064987648, 2657878016, 262144⟩
      11184811 "pru0.bin" "pru1.bin" [1] [1]).device.map
        (fun leds => (leds.frame_size, leds.pru0.ddr_size)) = some (2147483712, 262144) ∧
    2 * 2147483712 > 262144 ∧
    ¬ capacity_check_fails ⟨3064987648, 2657878016, 262144⟩ 11184811 ∧
    event.die ∉ (ledscape_init_with_programs ⟨3064987648, 2657878016, 262144⟩
      ⟨3064987648, 2657878016, 262144⟩ 11184811 "pru0.bin" "pru1.bin" [1] [1]).log ∧
    ((ledscape_init_with_programs ⟨3064987648, 2657878016, 262144⟩
      ⟨3064987648, 2657878016, 262144⟩ 11184811 "pru0.bin" "pru1.bin" [1] [1]).log.filter
        event.is_pru_gpio).length = 52 ∧
    ((ledscape_init_with_programs ⟨3064987648, 2657878016, 262144⟩
      ⟨3064987648, 2657878016, 262144⟩ 11184811 "pru0.bin" "pru1.bin" [1] [1]).log.filter
        event.is_pru_exec).length = 2 ∧
    ((ledscape_init_with_programs ⟨3064987648, 2657878016, 262144⟩
      ⟨3064987648, 2657878016, 262144⟩ 11184811 "pru0.bin" "pru1.bin" [1] [1]).log.filter
        event.is_store).length = 2 := by
  refine ⟨?_, ?_, by decide, by decide, by decide, by decide, by decide, by decide, by decide,
    by decide⟩
  · intro pru0 pru1 num_pixels f0 f1 responses_0 responses_1 hsmall hgt
    have hc : capacity_check_fails pru0 num_pixels :=
      (capacity_check_of_small_frame pru0 num_pixels hsmall).mpr hgt
    rw [init_of_check_fails pru0 pru1 num_pixels f0 f1 responses_0 responses_1 hc]
    exact ⟨rfl, died_log_has_no_effect⟩
  · intro pru0 pru1 num_pixels f0 f1 responses_0 responses_1 hc
    obtain ⟨rest, hrest⟩ :=
      init_log_starts pru0 pru1 num_pixels f0 f1 responses_0 responses_1 hc
    rw [hrest, before_first_exec_init]
    exact ⟨⟨rest, rfl⟩, rfl, rfl, rfl, rfl, rfl, rfl, rfl, rfl, rfl⟩

/-- C19: when the capacity check passes, the log of the bring-up starts with
the two `pru_init` calls, the stores of `{pixels_dma = 0, num_pixels, command =
0, response = 0}` to both command blocks, the GPIO calls and the start of
program 0.  A run that returns a device has loaded the response word of
coprocessor 0 until it read non-zero, then started program 1, then loaded the
response word of coprocessor 1 until it read non-zero; and it does return once
both response sequences hold a non-zero value.  The device records `frame_size =
num_pixels * 48 * 4` reduced modulo 2^32: at `num_pixels = 22369622` the product
is 4294967424 and the recorded `frame_size` is 128. -/
theorem bring_up_handshake_frame_size_wraps :
    (∀ (pru0 pru1 : pru_t) (num_pixels : Nat) (f0 f1 : String)
      (responses_0 responses_1 : List Nat), ¬ capacity_check_fails pru0 num_pixels →
      ∃ rest, (ledscape_init_with_programs pru0 pru1 num_pixels f0 f1 responses_0
        responses_1).log = init_log_to_exec0 num_pixels f0 ++ rest) ∧
    (∀ (pru0 pru1 : pru_t) (num_pixels : Nat) (f0 f1 : String)
      (responses_0 responses_1 : List Nat) (leds : ledscape_t) (log : List event),
      ledscape_init_with_programs pru0 pru1 num_pixels f0 f1 responses_0 responses_1
        = init_outcome.ready leds log →
      ∃ (zeros_0 : List Nat) (v0 : Nat) (zeros_1 : List Nat) (v1 : Nat), v0 ≠ 0 ∧ v1 ≠ 0 ∧
        (∀ z ∈ zeros_0, z = 0) ∧ (∀ z ∈ zeros_1, z = 0) ∧
        log = init_log_to_exec0 num_pixels f0
          ++ (zeros_0.map (event.load_response 0) ++ [event.load_response 0 v0])
          ++ [event.pru_exec 1 f1]
          ++ (zeros_1.map (event.load_response 1) ++ [event.load_response 1 v1]) ∧
        leds.ws281x_0 = { initial_block num_pixels with response := v0 } ∧
        leds.ws281x_1 = { initial_block num_pixels with response := v1 } ∧
        leds.num_pixels = num_pixels ∧
        leds.frame_size = (num_pixels * 48 * 4) % 2 ^ 32) ∧
    (∀ (pru0 pru1 : pru_t) (num_pixels : Nat) (f0 f1 : String)
      (responses_0 responses_1 : List Nat), ¬ capacity_check_fails pru0 num_pixels →
      (∃ x ∈ responses_0, x ≠ 0) → (∃ x ∈ responses_1, x ≠ 0) →
      ∃ leds log, ledscape_init_with_programs pru0 pru1 num_pixels f0 f1 responses_0
        responses_1 = init_outcome.ready leds log) ∧
    22369622 * 48 * 4 = 4294967424 ∧
    (ledscape_init_with_programs ⟨3064987648, 2657878016, 262144⟩ ⟨3064987648, 2657878016, 262144⟩
      22369622 "pru0.bin" "pru1.bin" [0, 0, 1] [0, 1]).device.map ledscape_t.frame_size
      = some 128 := by
  refine ⟨init_log_starts, ?_, ?_, by decide, by decide⟩
  · intro pru0 pru1 num_pixels f0 f1 responses_0 responses_1 leds log h
    by_cases hc : capacity_check_fails pru0 num_pixels
    · rw [init_of_check_fails pru0 pru1 num_pixels f0 f1 responses_0 responses_1 hc] at h
      simp at h
    · rw [init_of_check_passes pru0 pru1 num_pixels f0 f1 responses_0 responses_1 hc] at h
      cases h0 : poll_response 0 responses_0 with
      | none => rw [h0] at h; simp at h
      | some r0 =>
        obtain ⟨v0, l0⟩ := r0
        rw [h0] at h
        cases h1 : poll_response 1 responses_1 with
        | none => rw [h1] at h; simp at h
        | some r1 =>
          obtain ⟨v1, l1⟩ := r1
          rw [h1] at h
          simp only [init_outcome.ready.injEq] at h
          obtain ⟨hleds, hlog⟩ := h
          obtain ⟨zeros_0, _, _, hz0, hv0, hl0⟩ := poll_response_eq_some 0 responses_0 v0 l0 h0
          obtain ⟨zeros_1, _, _, hz1, hv1, hl1⟩ := poll_response_eq_some 1 responses_1 v1 l1 h1
          refine ⟨zeros_0, v0, zeros_1, v1, hv0, hv1, hz0, hz1, ?_, ?_, ?_, ?_, ?_⟩
          · rw [← hlog, hl0, hl1]
          · rw [← hleds]
          · rw [← hleds]
          · rw [← hleds]
          · rw [← hleds]; exact frame_size_product num_pixels
  · intro pru0 pru1 num_pixels f0 f1 responses_0 responses_1 hc hr0 hr1
    rw [init_of_check_passes pru0 pru1 num_pixels f0 f1 responses_0 responses_1 hc]
    cases h0 : poll_response 0 responses_0 with
    | none =>
      obtain ⟨x, hx, hne⟩ := hr0
      exact absurd ((poll_response_eq_none 0 responses_0).mp h0 x hx) hne
    | some r0 =>
      obtain ⟨v0, l0⟩ := r0
      cases h1 : poll_response 1 responses_1 with
      | none =>
        obtain ⟨x, hx, hne⟩ := hr1
        exact absurd ((poll_response_eq_none 1 responses_1).mp h1 x hx) hne
      | some r1 =>
        obtain ⟨v1, l1⟩ := r1
        exact ⟨_, _, rfl⟩

/-! ## Writing a pixel of a frame in memory -/

theorem store_pixel_other (mem : memory) (addr : Nat) (p : ledscape_pixel_t) (i : Nat)
    (h : i < addr ∨ addr + 3 < i) : store_pixel mem addr p i = mem i := by
  unfold store_pixel
  have h0 : i ≠ addr := by omega
  have h1 : i ≠ addr + 1 := by omega
  have h2 : i ≠ addr + 2 := by omega
  have h3 : i ≠ addr + 3 := by omega
  simp only [if_neg h0, if_neg h1, if_neg h2, if_neg h3]

theorem load_store_pixel (mem : memory) (addr : Nat) (p : ledscape_pixel_t) :
    load_pixel (store_pixel mem addr p) addr = p := by
  unfold load_pixel store_pixel
  simp

theorem set_color_address (frame strip pixel : Nat) :
    frame + pixel * sizeof_frame + strip * sizeof_pixel = frame + (pixel * 48 + strip) * 4 := by
  unfold sizeof_frame sizeof_pixel LEDSCAPE_NUM_STRIPS
  omega

theorem set_color_eq_store (mem : memory) (frame : Nat) (o : color_channel_order_t)
    (strip pixel r g b w : Nat) :
    ledscape_set_color mem frame o strip pixel r g b w
      = store_pixel mem (frame + (pixel * 48 + strip) * 4)
          (ledscape_pixel_set_color (load_pixel mem (frame + (pixel * 48 + strip) * 4))
            o r g b w) := by
  unfold ledscape_set_color
  simp only [set_color_address]

/-- C13, as amended: `ledscape_set_color` checks no bound and has no result.  It
updates the pixel at byte offset `(row * 48 + strip) * 4` from the frame pointer
whatever the indices are: with `strip == 48` that is the pixel of strip 0 in
the next row, and with `row == num_pixels` the bytes written lie at or past the
end of the `num_pixels * 48 * 4` bytes of the frame, whose bytes all stay as
they were. -/
theorem set_color_unchecked (mem : memory) (frame : Nat) (o : color_channel_order_t)
    (strip row r g b w num_pixels : Nat) :
    load_pixel (ledscape_set_color mem frame o strip row r g b w)
        (frame + (row * 48 + strip) * 4)
      = ledscape_pixel_set_color (load_pixel mem (frame + (row * 48 + strip) * 4)) o r g b w ∧
    (strip = 48 →
      ledscape_set_color mem frame o strip row r g b w
        = ledscape_set_color mem frame o 0 (row + 1) r g b w) ∧
    (row = num_pixels →
      frame + num_pixels * 48 * 4 ≤ frame + (row * 48 + strip) * 4 ∧
      ∀ i, frame ≤ i → i < frame + num_pixels * 48 * 4 →
        ledscape_set_color mem frame o strip row r g b w i = mem i) := by
  refine ⟨?_, ?_, ?_⟩
  · rw [set_color_eq_store, load_store_pixel]
  · intro hs
    subst hs
    rw [set_color_eq_store, set_color_eq_store]
    have h : frame + (row * 48 + 48) * 4 = frame + ((row + 1) * 48 + 0) * 4 := by omega
    rw [h]
  · intro hr
    subst hr
    refine ⟨by omega, ?_⟩
    intro i _ hi
    rw [set_color_eq_store]
    exact store_pixel_other _ _ _ _ (Or.inl (by omega))

/-- C13, counterexample: on a frame of two rows at address 0 in zeroed memory,
the call with `strip == 48`, row 0 and (r,g,b,w) = (1,2,3,4) in order RGB
returns the memory in which bytes 192, 193, 194 of the frame, slots a, b, c of
row 1 strip 0, hold 1, 2, 3: the frame is modified and nothing reports a
failure. -/
theorem set_color_strip_48_modifies_frame :
    192 < 2 * 48 * 4 ∧
    (fun _ => 0 : memory) 192 = 0 ∧
    ledscape_set_color (fun _ => 0) 0 COLOR_ORDER_RGB 48 0 1 2 3 4 192 = 1 ∧
    ledscape_set_color (fun _ => 0) 0 COLOR_ORDER_RGB 48 0 1 2 3 4 193 = 2 ∧
    ledscape_set_color (fun _ => 0) 0 COLOR_ORDER_RGB 48 0 1 2 3 4 194 = 3 ∧
    ledscape_set_color (fun _ => 0) 0 COLOR_ORDER_RGB 48 0 1 2 3 4 192
      ≠ (fun _ => 0 : memory) 192 := by
  decide

/-- C14: for every row `p` and strip `s < 48`, `ledscape_set_color` leaves every
byte outside offsets `(p * 48 + s) * 4 .. (p * 48 + s) * 4 + 3` from the frame
pointer unchanged; the four bytes there, slots a, b, c, d in that order, are
those `ledscape_pixel_set_color` produces from the pixel stored there before;
and the four bytes lie in row `p`, between offsets `p * 192` and
`(p + 1) * 192`. -/
theorem set_color_strip_major (mem : memory) (frame : Nat) (o : color_channel_order_t)
    (s p r g b w : Nat) (hs : s < 48) :
    (∀ i, i < frame + (p * 48 + s) * 4 ∨ frame + (p * 48 + s) * 4 + 3 < i →
      ledscape_set_color mem frame o s p r g b w i = mem i) ∧
    load_pixel (ledscape_set_color mem frame o s p r g b w) (frame + (p * 48 + s) * 4)
      = ledscape_pixel_set_color (load_pixel mem (frame + (p * 48 + s) * 4)) o r g b w ∧
    slots (load_pixel (ledscape_set_color mem frame o s p r g b w) (frame + (p * 48 + s) * 4))
      = [ledscape_set_color mem frame o s p r g b w (frame + (p * 48 + s) * 4),
         ledscape_set_color mem frame o s p r g b w (frame + (p * 48 + s) * 4 + 1),
         ledscape_set_color mem frame o s p r g b w (frame + (p * 48 + s) * 4 + 2),
         ledscape_set_color mem frame o s p r g b w (frame + (p * 48 + s) * 4 + 3)] ∧
    frame + p * (48 * 4) ≤ frame + (p * 48 + s) * 4 ∧
    frame + (p * 48 + s) * 4 + 3 < frame + (p + 1) * (48 * 4) := by
  refine ⟨?_, ?_, rfl, by omega, by omega⟩
  · intro i hi
    rw [set_color_eq_store]
    exact store_pixel_other _ _ _ _ hi
  · rw [set_color_eq_store, load_store_pixel]

/-- C14, witness: in zeroed memory, writing (r,g,b,w) = (1,2,3,4) in order GBRW
to strip 2 of row 1 of the frame at address 1000 puts 2, 3, 4, 1 at addresses
1200 .. 1203 and leaves addresses 1199 and 1204 at 0. -/
theorem set_color_strip_major_witness :
    1000 + (1 * 48 + 2) * 4 = 1200 ∧
    load_pixel (ledscape_set_color (fun _ => 0) 1000 COLOR_ORDER_GBRW 2 1 1 2 3 4) 1200
      = ⟨2, 3, 4, 1⟩ ∧
    ledscape_set_color (fun _ => 0) 1000 COLOR_ORDER_GBRW 2 1 1 2 3 4 1199 = 0 ∧
    ledscape_set_color (fun _ => 0) 1000 COLOR_ORDER_GBRW 2 1 1 2 3 4 1204 = 0 :=
  ⟨by decide, by decide,
   (set_color_strip_major (fun _ => 0) 1000 COLOR_ORDER_GBRW 2 1 1 2 3 4 (by decide)).1 1199
     (Or.inl (by decide)),
   (set_color_strip_major (fun _ => 0) 1000 COLOR_ORDER_GBRW 2 1 1 2 3 4 (by decide)).1 1204
     (Or.inr (by decide))⟩

/-- C18, as amended: `COLOR_ORDER_BGWR` assigns slot d from g, a channel other
than the r that the fourth letter R of its name stands for, so slot d differs
from the named channel whenever r and g differ; `COLOR_ORDER_BRWG` assigns slot
d from g, the channel that the fourth letter G of its name stands for, and for
all inputs its four slots are b, r, w, g, the channels its name spells. -/
theorem slot_d_defect_at_BGWR_not_BRWG (p : ledscape_pixel_t) (r g b w : Nat) :
    (enumerator_name COLOR_ORDER_BGWR).toList[3]? = some 'R' ∧
    channel r g b w 'R' = some r ∧
    (ledscape_pixel_set_color p COLOR_ORDER_BGWR r g b w).d = g ∧
    (r ≠ g → some (ledscape_pixel_set_color p COLOR_ORDER_BGWR r g b w).d
      ≠ channel r g b w 'R') ∧
    (enumerator_name COLOR_ORDER_BRWG).toList[3]? = some 'G' ∧
    channel r g b w 'G' = some g ∧
    some (ledscape_pixel_set_color p COLOR_ORDER_BRWG r g b w).d = channel r g b w 'G' ∧
    slots (ledscape_pixel_set_color p COLOR_ORDER_BRWG r g b w) = [b, r, w, g] ∧
    (slots (ledscape_pixel_set_color p COLOR_ORDER_BRWG r g b w)).map some
      = named_channels (enumerator_name COLOR_ORDER_BRWG) r g b w := by
  refine ⟨by decide, rfl, rfl, ?_, by decide, rfl, rfl, rfl, rfl⟩
  intro hne h
  have h2 : (ledscape_pixel_set_color p COLOR_ORDER_BGWR r g b w).d = g := rfl
  have h3 : channel r g b w 'R' = some r := rfl
  rw [h2, h3] at h
  exact hne (Option.some.inj h).symm

/-- C18, the amended statement at (r,g,b,w) = (1,2,3,4): `COLOR_ORDER_BGWR`
stores 2 in slot d where the letter R names 1; `COLOR_ORDER_BRWG` stores
(3,1,4,2). -/
theorem slot_d_defect_at_BGWR_not_BRWG_witness :
    (ledscape_pixel_set_color ⟨0, 0, 0, 0⟩ COLOR_ORDER_BGWR 1 2 3 4).d = 2 ∧
    some (ledscape_pixel_set_color ⟨0, 0, 0, 0⟩ COLOR_ORDER_BGWR 1 2 3 4).d
      ≠ channel 1 2 3 4 'R' ∧
    slots (ledscape_pixel_set_color ⟨0, 0, 0, 0⟩ COLOR_ORDER_BRWG 1 2 3 4) = [3, 1, 4, 2] :=
  ⟨(slot_d_defect_at_BGWR_not_BRWG ⟨0, 0, 0, 0⟩ 1 2 3 4).2.2.1,
   (slot_d_defect_at_BGWR_not_BRWG ⟨0, 0, 0, 0⟩ 1 2 3 4).2.2.2.1 (by decide),
   (slot_d_defect_at_BGWR_not_BRWG ⟨0, 0, 0, 0⟩ 1 2 3 4).2.2.2.2.2.2.2.1⟩

/-- C18, counterexample: with (r,g,b,w) = (1,2,3,4) `COLOR_ORDER_BRWG` stores 2
in slot d, and 2 is the channel g that the fourth letter G of its name stands
for. -/
theorem slot_d_of_BRWG_follows_name :
    (enumerator_name COLOR_ORDER_BRWG).toList[3]? = some 'G' ∧
    color_channel_order_to_string COLOR_ORDER_BRWG = "BRWG" ∧
    channel 1 2 3 4 'G' = some 2 ∧
    (ledscape_pixel_set_color ⟨0, 0, 0, 0⟩ COLOR_ORDER_BRWG 1 2 3 4).d = 2 ∧
    slots (ledscape_pixel_set_color ⟨0, 0, 0, 0⟩ COLOR_ORDER_BRWG 1 2 3 4) = [3, 1, 4, 2] ∧
    (slots (ledscape_pixel_set_color ⟨0, 0, 0, 0⟩ COLOR_ORDER_BRWG 1 2 3 4)).map some
      = named_channels "BRWG" 1 2 3 4 := by
  decide

/-! ## Transfer, completion and shutdown -/

theorem observe_observe (leds : ledscape_t) (w1 w2 : pru_words) :
    observe (observe leds w1) w2 = observe leds w2 := by
  rfl

theorem both_idle_false_iff (words : pru_words) :
    both_idle words = false ↔ words.command_0 ≠ 0 ∨ words.command_1 ≠ 0 := by
  unfold both_idle
  by_cases h0 : words.command_0 = 0 <;> by_cases h1 : words.command_1 = 0 <;> simp [h0, h1]

theorem both_idle_true_iff (words : pru_words) :
    both_idle words = true ↔ words.command_0 = 0 ∧ words.command_1 = 0 := by
  unfold both_idle
  simp

theorem both_done_false_iff (words : pru_words) :
    both_done words = false ↔ words.response_0 = 0 ∨ words.response_1 = 0 := by
  unfold both_done
  by_cases h0 : words.response_0 = 0 <;> by_cases h1 : words.response_1 = 0 <;> simp [h0, h1]

theorem both_done_true_iff (words : pru_words) :
    both_done words = true ↔ words.response_0 ≠ 0 ∧ words.response_1 ≠ 0 := by
  unfold both_done
  simp

theorem poll_commands_cons (leds : ledscape_t) (words : pru_words) (rest : List pru_words) :
    poll_commands leds (words :: rest) =
      if words.command_0 ≠ 0 then
        (poll_commands (observe leds words) rest).after [event.load_command 0 words.command_0]
      else if words.command_1 ≠ 0 then
        (poll_commands (observe leds words) rest).after
          [event.load_command 0 words.command_0, event.load_command 1 words.command_1]
      else
        run_outcome.returned (observe leds words)
          [event.load_command 0 words.command_0, event.load_command 1 words.command_1] := by
  rfl

theorem poll_commands_cons_busy (leds : ledscape_t) (words : pru_words) (rest : List pru_words)
    (h : both_idle words = false) :
    poll_commands leds (words :: rest)
      = (poll_commands (observe leds words) rest).after (busy_loads [words]) := by
  rw [both_idle_false_iff] at h
  rw [poll_commands_cons]
  simp only [busy_loads, List.append_nil]
  by_cases h0 : words.command_0 = 0
  · have h1 : words.command_1 ≠ 0 := by
      rcases h with h | h
      · exact absurd h0 h
      · exact h
    simp [h0, h1]
  · simp [h0]

theorem poll_commands_cons_idle (leds : ledscape_t) (words : pru_words) (rest : List pru_words)
    (h : both_idle words = true) :
    poll_commands leds (words :: rest)
      = run_outcome.returned (observe leds words)
          [event.load_command 0 0, event.load_command 1 0] := by
  rw [both_idle_true_iff] at h
  rw [poll_commands_cons]
  simp [h.1, h.2]

theorem poll_commands_returned (leds : ledscape_t) (pre : List pru_words) (words : pru_words)
    (post : List pru_words) (hpre : ∀ x ∈ pre, both_idle x = false)
    (hw : both_idle words = true) :
    poll_commands leds (pre ++ words :: post)
      = run_outcome.returned (observe leds words)
          (busy_loads pre ++ [event.load_command 0 0, event.load_command 1 0]) := by
  induction pre generalizing leds with
  | nil => simpa [busy_loads] using poll_commands_cons_idle leds words post hw
  | cons x rest ih =>
    have hx : both_idle x = false := hpre x (List.mem_cons_self _ _)
    have hrest : ∀ y ∈ rest, both_idle y = false :=
      fun y hy => hpre y (List.mem_cons_of_mem _ hy)
    rw [List.cons_append, poll_commands_cons_busy leds x _ hx, ih (observe leds x) hrest,
      observe_observe]
    simp [run_outcome.after, busy_loads, List.append_assoc]

theorem poll_commands_spinning (leds : ledscape_t) (observed : List pru_words)
    (h : ∀ x ∈ observed, both_idle x = false) :
    poll_commands leds observed
      = run_outcome.spinning (observed.foldl observe leds) (busy_loads observed) := by
  induction observed generalizing leds with
  | nil => rfl
  | cons x rest ih =>
    have hx : both_idle x = false := h x (List.mem_cons_self _ _)
    have hrest : ∀ y ∈ rest, both_idle y = false :=
      fun y hy => h y (List.mem_cons_of_mem _ hy)
    rw [poll_commands_cons_busy leds x _ hx, ih (observe leds x) hrest]
    simp [run_outcome.after, busy_loads, List.append_assoc]

theorem busy_loads_no_store (observed : List pru_words) :
    ∀ e ∈ busy_loads observed, e.is_store = false ∧ e.is_load = true := by
  induction observed with
  | nil => intro e he; cases he
  | cons x rest ih =>
    intro e he
    unfold busy_loads at he
    rcases List.mem_append.mp he with h | h
    · split_ifs at h
      · simp only [List.mem_singleton] at h
        subst h
        exact ⟨rfl, rfl⟩
      · simp only [List.mem_cons, List.mem_singleton, List.not_mem_nil, or_false] at h
        rcases h with rfl | rfl
        all_goals exact ⟨rfl, rfl⟩
    · exact ih e h

theorem after_leds (log : List event) (o : run_outcome) : (o.after log).leds = o.leds := by
  cases o <;> rfl

theorem after_log (log : List event) (o : run_outcome) : (o.after log).log = log ++ o.log := by
  cases o <;> rfl

theorem after_has_returned (log : List event) (o : run_outcome) :
    (o.after log).has_returned = o.has_returned := by
  cases o <;> rfl

theorem poll_commands_keeps_host_words (leds : ledscape_t) (observed : List pru_words) :
    (poll_commands leds observed).leds.ws281x_0.pixels_dma = leds.ws281x_0.pixels_dma ∧
    (poll_commands leds observed).leds.ws281x_1.pixels_dma = leds.ws281x_1.pixels_dma ∧
    (poll_commands leds observed).leds.ws281x_0.num_pixels = leds.ws281x_0.num_pixels ∧
    (poll_commands leds observed).leds.ws281x_1.num_pixels = leds.ws281x_1.num_pixels := by
  induction observed generalizing leds with
  | nil => exact ⟨rfl, rfl, rfl, rfl⟩
  | cons x rest ih =>
    cases hx : both_idle x with
    | true =>
      rw [poll_commands_cons_idle leds x rest hx]
      exact ⟨rfl, rfl, rfl, rfl⟩
    | false =>
      rw [poll_commands_cons_busy leds x rest hx, after_leds]
      exact ih (observe leds x)

theorem draw_published (leds : ledscape_t) (frame : Nat) (observed : List pru_words) :
    (ledscape_draw leds frame observed).log.take 2
      = [event.store_pixels_dma 0 (add32 leds.pru0.ddr_addr (mul32 leds.frame_size frame)),
         event.store_pixels_dma 1 (add32 leds.pru0.ddr_addr (mul32 leds.frame_size frame))] ∧
    (ledscape_draw leds frame observed).leds.ws281x_0.pixels_dma
      = add32 leds.pru0.ddr_addr (mul32 leds.frame_size frame) ∧
    (ledscape_draw leds frame observed).leds.ws281x_1.pixels_dma
      = add32 leds.pru0.ddr_addr (mul32 leds.frame_size frame) ∧
    (ledscape_draw leds frame observed).leds.pru0 = leds.pru0 ∧
    (ledscape_draw leds frame observed).leds.frame_size = leds.frame_size := by
  have hk := poll_commands_keeps_host_words
    { leds with
      ws281x_0 := { leds.ws281x_0 with
        pixels_dma := add32 leds.pru0.ddr_addr (mul32 leds.frame_size frame) },
      ws281x_1 := { leds.ws281x_1 with
        pixels_dma := add32 leds.pru0.ddr_addr (mul32 leds.frame_size frame) } } observed
  have hd : ∀ (l : ledscape_t) (obs : List pru_words),
      (poll_commands l obs).leds.pru0 = l.pru0 ∧
      (poll_commands l obs).leds.frame_size = l.frame_size := by
    intro l obs
    induction obs generalizing l with
    | nil => exact ⟨rfl, rfl⟩
    | cons x rest ih =>
      cases hx : both_idle x with
      | true => rw [poll_commands_cons_idle l x rest hx]; exact ⟨rfl, rfl⟩
      | false => rw [poll_commands_cons_busy l x rest hx, after_leds]; exact ih (observe l x)
  have hd2 := hd
    { leds with
      ws281x_0 := { leds.ws281x_0 with
        pixels_dma := add32 leds.pru0.ddr_addr (mul32 leds.frame_size frame) },
      ws281x_1 := { leds.ws281x_1 with
        pixels_dma := add32 leds.pru0.ddr_addr (mul32 leds.frame_size frame) } } observed
  unfold ledscape_draw
  simp only
  cases hp : poll_commands
    { leds with
      ws281x_0 := { leds.ws281x_0 with
        pixels_dma := add32 leds.pru0.ddr_addr (mul32 leds.frame_size frame) },
      ws281x_1 := { leds.ws281x_1 with
        pixels_dma := add32 leds.pru0.ddr_addr (mul32 leds.frame_size frame) } } observed with
  | spinning seen loads =>
    rw [hp] at hk hd2
    exact ⟨rfl, hk.1, hk.2.1, hd2.1, hd2.2⟩
  | returned seen loads =>
    rw [hp] at hk hd2
    exact ⟨rfl, hk.1, hk.2.1, hd2.1, hd2.2⟩

/-- C15: `ledscape_draw(leds, slot)` first stores the address `ddr_addr +
frame_size * slot` (as the code computes it) to `pixels_dma` of both blocks.
Run against passes of the acknowledgement loop of which `pre` found a command
word still set and the next found both zero, it makes only loads during `pre`,
loads both command words as 0, then zeroes both response words, then stores 1 to
both command words, and returns with both blocks at `command = 1`, `response =
0`, the published `pixels_dma` and `num_pixels` unchanged.  Run against passes
that never find both command words zero, it does not return and its log holds
no store besides the two of `pixels_dma`. -/
theorem draw_protocol (leds : ledscape_t) (slot : Nat) (observed : List pru_words) :
    (∀ (pre : List pru_words) (words : pru_words) (post : List pru_words),
      observed = pre ++ words :: post → (∀ x ∈ pre, both_idle x = false) →
      both_idle words = true →
      ledscape_draw leds slot observed
        = run_outcome.returned
            { leds with
              ws281x_0 :=
                { pixels_dma := add32 leds.pru0.ddr_addr (mul32 leds.frame_size slot),
                  num_pixels := leds.ws281x_0.num_pixels, command := 1, response := 0 },
              ws281x_1 :=
                { pixels_dma := add32 leds.pru0.ddr_addr (mul32 leds.frame_size slot),
                  num_pixels := leds.ws281x_1.num_pixels, command := 1, response := 0 } }
            ([event.store_pixels_dma 0 (add32 leds.pru0.ddr_addr (mul32 leds.frame_size slot)),
              event.store_pixels_dma 1 (add32 leds.pru0.ddr_addr (mul32 leds.frame_size slot))]
              ++ busy_loads pre
              ++ [event.load_command 0 0, event.load_command 1 0,
                  event.store_response 1 0, event.store_response 0 0,
                  event.store_command 0 1, event.store_command 1 1])) ∧
    ((∀ x ∈ observed, both_idle x = false) →
      (ledscape_draw leds slot observed).has_returned = false ∧
      (ledscape_draw leds slot observed).log
        = [event.store_pixels_dma 0 (add32 leds.pru0.ddr_addr (mul32 leds.frame_size slot)),
           event.store_pixels_dma 1 (add32 leds.pru0.ddr_addr (mul32 leds.frame_size slot))]
          ++ busy_loads observed) ∧
    (∀ e ∈ busy_loads observed, e.is_store = false ∧ e.is_load = true) ∧
    (leds.pru0.ddr_addr + leds.frame_size * slot < 2 ^ 32 →
      add32 leds.pru0.ddr_addr (mul32 leds.frame_size slot)
        = leds.pru0.ddr_addr + leds.frame_size * slot) := by
  refine ⟨?_, ?_, busy_loads_no_store observed, ?_⟩
  · intro pre words post hobs hpre hw
    subst hobs
    unfold ledscape_draw
    simp only
    rw [poll_commands_returned _ pre words post hpre hw]
    simp [observe, List.append_assoc]
  · intro h
    unfold ledscape_draw
    simp only
    rw [poll_commands_spinning _ observed h]
    exact ⟨rfl, rfl⟩
  · intro h
    unfold add32 mul32
    have h1 : leds.frame_size * slot < 2 ^ 32 := by omega
    rw [Nat.mod_eq_of_lt h1, Nat.mod_eq_of_lt h]

/-- C15, an instance: on `example_leds` (base 2657878016, frame size 19200),
drawing slot 1 against a first pass that finds command word 0 still set, a
second that finds command word 1 still set and a third that finds both zero
returns with the log below. -/
theorem draw_protocol_instance :
    ledscape_draw example_leds 1 [⟨1, 0, 1, 0⟩, ⟨0, 0, 1, 0⟩, ⟨0, 3, 0, 0⟩, ⟨5, 5, 5, 5⟩]
      = run_outcome.returned
          { example_leds with
            ws281x_0 := { pixels_dma := 2657897216, num_pixels := 100, command := 1,
                          response := 0 },
            ws281x_1 := { pixels_dma := 2657897216, num_pixels := 100, command := 1,
                          response := 0 } }
          [event.store_pixels_dma 0 2657897216, event.store_pixels_dma 1 2657897216,
           event.load_command 0 1, event.load_command 0 0, event.load_command 1 1,
           event.load_command 0 0, event.load_command 1 0,
           event.store_response 1 0, event.store_response 0 0,
           event.store_command 0 1, event.store_command 1 1] := by
  have h := (draw_protocol example_leds 1
    [⟨1, 0, 1, 0⟩, ⟨0, 0, 1, 0⟩, ⟨0, 3, 0, 0⟩, ⟨5, 5, 5, 5⟩]).1
    [⟨1, 0, 1, 0⟩, ⟨0, 0, 1, 0⟩] ⟨0, 3, 0, 0⟩ [⟨5, 5, 5, 5⟩] rfl (by decide) (by decide)
  rw [h]
  decide

theorem ledscape_wait_cons (leds : ledscape_t) (words : pru_words) (rest : List pru_words) :
    ledscape_wait leds (words :: rest) =
      if words.response_0 ≠ 0 then
        if words.response_1 ≠ 0 then
          run_outcome.returned (observe leds words)
            [event.pru_wait_interrupt, event.load_response 0 words.response_0,
              event.load_response 1 words.response_1]
        else
          (ledscape_wait (observe leds words) rest).after
            [event.pru_wait_interrupt, event.load_response 0 words.response_0,
              event.load_response 1 words.response_1]
      else
        (ledscape_wait (observe leds words) rest).after
          [event.pru_wait_interrupt, event.load_response 0 words.response_0] := by
  rfl

theorem ledscape_wait_cons_pending (leds : ledscape_t) (words : pru_words)
    (rest : List pru_words) (h : both_done words = false) :
    ledscape_wait leds (words :: rest)
      = (ledscape_wait (observe leds words) rest).after (waiting_loads [words]) := by
  rw [both_done_false_iff] at h
  rw [ledscape_wait_cons]
  simp only [waiting_loads, List.append_nil]
  by_cases h0 : words.response_0 = 0
  · simp [h0]
  · have h1 : words.response_1 = 0 := by
      rcases h with h | h
      · exact absurd h h0
      · exact h
    simp [h0, h1]

theorem ledscape_wait_cons_done (leds : ledscape_t) (words : pru_words) (rest : List pru_words)
    (h : both_done words = true) :
    ledscape_wait leds (words :: rest)
      = run_outcome.returned (observe leds words)
          [event.pru_wait_interrupt, event.load_response 0 words.response_0,
            event.load_response 1 words.response_1] := by
  rw [both_done_true_iff] at h
  rw [ledscape_wait_cons]
  simp [h.1, h.2]

theorem ledscape_wait_returned (leds : ledscape_t) (pre : List pru_words) (words : pru_words)
    (post : List pru_words) (hpre : ∀ x ∈ pre, both_done x = false)
    (hw : both_done words = true) :
    ledscape_wait leds (pre ++ words :: post)
      = run_outcome.returned (observe leds words)
          (waiting_loads pre ++ [event.pru_wait_interrupt,
            event.load_response 0 words.response_0, event.load_response 1 words.response_1]) := by
  induction pre generalizing leds with
  | nil => simpa [waiting_loads] using ledscape_wait_cons_done leds words post hw
  | cons x rest ih =>
    have hx : both_done x = false := hpre x (List.mem_cons_self _ _)
    have hrest : ∀ y ∈ rest, both_done y = false :=
      fun y hy => hpre y (List.mem_cons_of_mem _ hy)
    rw [List.cons_append, ledscape_wait_cons_pending leds x _ hx, ih (observe leds x) hrest,
      observe_observe]
    simp [run_outcome.after, waiting_loads, List.append_assoc]

theorem ledscape_wait_spinning (leds : ledscape_t) (observed : List pru_words)
    (h : ∀ x ∈ observed, both_done x = false) :
    ledscape_wait leds observed
      = run_outcome.spinning (observed.foldl observe leds)
          (waiting_loads observed ++ [event.pru_wait_interrupt]) := by
  induction observed generalizing leds with
  | nil => rfl
  | cons x rest ih =>
    have hx : both_done x = false := h x (List.mem_cons_self _ _)
    have hrest : ∀ y ∈ rest, both_done y = false :=
      fun y hy => h y (List.mem_cons_of_mem _ hy)
    rw [ledscape_wait_cons_pending leds x _ hx, ih (observe leds x) hrest]
    simp [run_outcome.after, waiting_loads, List.append_assoc]

theorem ledscape_wait_no_store (leds : ledscape_t) (observed : List pru_words) :
    (∀ e ∈ (ledscape_wait leds observed).log, e.is_store = false) ∧
    (ledscape_wait leds observed).leds.ws281x_0.pixels_dma = leds.ws281x_0.pixels_dma ∧
    (ledscape_wait leds observed).leds.ws281x_0.num_pixels = leds.ws281x_0.num_pixels ∧
    (ledscape_wait leds observed).leds.ws281x_1.pixels_dma = leds.ws281x_1.pixels_dma ∧
    (ledscape_wait leds observed).leds.ws281x_1.num_pixels = leds.ws281x_1.num_pixels := by
  induction observed generalizing leds with
  | nil =>
    refine ⟨?_, rfl, rfl, rfl, rfl⟩
    intro e he
    simp only [ledscape_wait, run_outcome.log, List.mem_singleton] at he
    subst he
    rfl
  | cons x rest ih =>
    cases hx : both_done x with
    | true =>
      rw [ledscape_wait_cons_done leds x rest hx]
      refine ⟨?_, rfl, rfl, rfl, rfl⟩
      intro e he
      simp only [run_outcome.log, List.mem_cons, List.mem_singleton, List.not_mem_nil,
        or_false] at he
      rcases he with rfl | rfl | rfl
      all_goals rfl
    | false =>
      rw [ledscape_wait_cons_pending leds x rest hx, after_leds, after_log]
      obtain ⟨h1, h2, h3, h4, h5⟩ := ih (observe leds x)
      refine ⟨?_, h2, h3, h4, h5⟩
      intro e he
      rcases List.mem_append.mp he with h | h
      · unfold waiting_loads at h
        simp only [waiting_loads, List.append_nil] at h
        split_ifs at h
        · simp only [List.mem_cons, List.mem_singleton, List.not_mem_nil, or_false] at h
          rcases h with rfl | rfl | rfl
          all_goals rfl
        · simp only [List.mem_cons, List.mem_singleton, List.not_mem_nil, or_false] at h
          rcases h with rfl | rfl
          all_goals rfl
      · exact h1 e h

theorem waiting_loads_count (observed : List pru_words) :
    (waiting_loads observed).count event.pru_wait_interrupt = observed.length := by
  induction observed with
  | nil => rfl
  | cons x rest ih =>
    unfold waiting_loads
    rw [List.count_append, ih]
    split_ifs
    all_goals simp [List.count_cons]; omega

/-- C16: over any sequence of command-block words observed after successive
interrupt waits, if `words` is the first observation with both response words
non-zero, `ledscape_wait` returns there, having called `pru_wait_interrupt` once
per observation up to and including it; if no observation has both response
words non-zero (one alone does not count), it does not return.  It makes no
store to a command block. -/
theorem wait_returns_at_first_both_done (leds : ledscape_t) (observed : List pru_words) :
    (∀ (pre : List pru_words) (words : pru_words) (post : List pru_words),
      observed = pre ++ words :: post → (∀ x ∈ pre, both_done x = false) →
      both_done words = true →
      ledscape_wait leds observed
        = run_outcome.returned (observe leds words)
            (waiting_loads pre ++ [event.pru_wait_interrupt,
              event.load_response 0 words.response_0,
              event.load_response 1 words.response_1]) ∧
      (ledscape_wait leds observed).log.count event.pru_wait_interrupt = pre.length + 1) ∧
    ((∀ x ∈ observed, both_done x = false) →
      (ledscape_wait leds observed).has_returned = false) ∧
    (∀ e ∈ (ledscape_wait leds observed).log, e.is_store = false) ∧
    (ledscape_wait leds observed).leds.ws281x_0.pixels_dma = leds.ws281x_0.pixels_dma ∧
    (ledscape_wait leds observed).leds.ws281x_0.num_pixels = leds.ws281x_0.num_pixels ∧
    (ledscape_wait leds observed).leds.ws281x_1.pixels_dma = leds.ws281x_1.pixels_dma ∧
    (ledscape_wait leds observed).leds.ws281x_1.num_pixels = leds.ws281x_1.num_pixels := by
  refine ⟨?_, ?_, ledscape_wait_no_store leds observed⟩
  · intro pre words post hobs hpre hw
    subst hobs
    rw [ledscape_wait_returned leds pre words post hpre hw]
    refine ⟨rfl, ?_⟩
    simp only [run_outcome.log]
    rw [List.count_append, waiting_loads_count]
    simp [List.count_cons]
  · intro h
    rw [ledscape_wait_spinning leds observed h]
    rfl

/-- C16, an instance: against observations with the response words (0,1),
(1,0), (2,3), (0,0), `ledscape_wait` returns at the third, after three interrupt
waits, with the command blocks as the third observation left them. -/
theorem wait_returns_at_first_both_done_instance :
    ledscape_wait example_leds [⟨0, 0, 0, 1⟩, ⟨0, 1, 0, 0⟩, ⟨0, 2, 0, 3⟩, ⟨0, 0, 0, 0⟩]
      = run_outcome.returned (observe example_leds ⟨0, 2, 0, 3⟩)
          [event.pru_wait_interrupt, event.load_response 0 0,
           event.pru_wait_interrupt, event.load_response 0 1, event.load_response 1 0,
           event.pru_wait_interrupt, event.load_response 0 2, event.load_response 1 3] ∧
    (ledscape_wait example_leds [⟨0, 0, 0, 1⟩, ⟨0, 1, 0, 0⟩, ⟨0, 2, 0, 3⟩,
      ⟨0, 0, 0, 0⟩]).log.count event.pru_wait_interrupt = 3 := by
  have h := (wait_returns_at_first_both_done example_leds
    [⟨0, 0, 0, 1⟩, ⟨0, 1, 0, 0⟩, ⟨0, 2, 0, 3⟩, ⟨0, 0, 0, 0⟩]).1
    [⟨0, 0, 0, 1⟩, ⟨0, 1, 0, 0⟩] ⟨0, 2, 0, 3⟩ [⟨0, 0, 0, 0⟩] rfl (by decide) (by decide)
  exact ⟨by rw [h.1]; decide, h.2⟩

/-- C17: `ledscape_close` stores 0xFF to the command word of block 0, then of
block 1, then calls `pru_close` on context 0, then on context 1; it loads
nothing, and it leaves `pixels_dma`, `num_pixels` and `response` of both blocks
as they were. -/
theorem close_aborts_then_releases (leds : ledscape_t) :
    (ledscape_close leds).2
      = [event.store_command 0 0xFF, event.store_command 1 0xFF,
         event.pru_close 0, event.pru_close 1] ∧
    (∀ e ∈ (ledscape_close leds).2, e.is_load = false) ∧
    (ledscape_close leds).1.ws281x_0 = { leds.ws281x_0 with command := 0xFF } ∧
    (ledscape_close leds).1.ws281x_1 = { leds.ws281x_1 with command := 0xFF } ∧
    (ledscape_close leds).1.ws281x_0.pixels_dma = leds.ws281x_0.pixels_dma ∧
    (ledscape_close leds).1.ws281x_0.num_pixels = leds.ws281x_0.num_pixels ∧
    (ledscape_close leds).1.ws281x_0.response = leds.ws281x_0.response ∧
    (ledscape_close leds).1.ws281x_1.pixels_dma = leds.ws281x_1.pixels_dma ∧
    (ledscape_close leds).1.ws281x_1.num_pixels = leds.ws281x_1.num_pixels ∧
    (ledscape_close leds).1.ws281x_1.response = leds.ws281x_1.response := by
  refine ⟨rfl, ?_, rfl, rfl, rfl, rfl, rfl, rfl, rfl, rfl⟩
  intro e he
  simp only [ledscape_close, List.mem_cons, List.mem_singleton, List.not_mem_nil,
    or_false] at he
  rcases he with rfl | rfl | rfl | rfl
  all_goals rfl

theorem published_address_without_wrap (ddr_addr frame_size slot : Nat)
    (h : ddr_addr + frame_size * slot < 2 ^ 32) :
    add32 ddr_addr (mul32 frame_size slot) = ddr_addr + frame_size * slot := by
  unfold add32 mul32
  have h1 : frame_size * slot < 2 ^ 32 := by omega
  rw [Nat.mod_eq_of_lt h1, Nat.mod_eq_of_lt h]

/-- C20: on a device with `2 * frame_size <= ddr_size` whose shared region
`[ddr_addr, ddr_addr + ddr_size)` lies in the 32-bit address space,
`ledscape_draw` publishes to both coprocessors, for slot 0 and 1, the address
`ddr_addr + frame_size * slot`; the range of `frame_size` bytes from there lies
within the shared region, and the ranges for slot 0 and slot 1 share no
address.  For a slot of 2 or more, where `ledscape_frame` returns `NULL`,
`ledscape_draw` publishes `ddr_addr + frame_size * slot` all the same (reduced
modulo 2^32 as the code computes it). -/
theorem transfer_inside_double_buffer (leds : ledscape_t) (slot : Nat)
    (observed : List pru_words)
    (hcheck : 2 * leds.frame_size ≤ leds.pru0.ddr_size)
    (haddr : leds.pru0.ddr_addr < 2 ^ 32)
    (hregion : leds.pru0.ddr_addr + leds.pru0.ddr_size ≤ 2 ^ 32) :
    (ledscape_draw leds slot observed).log.take 2
      = [event.store_pixels_dma 0 (add32 leds.pru0.ddr_addr (mul32 leds.frame_size slot)),
         event.store_pixels_dma 1 (add32 leds.pru0.ddr_addr (mul32 leds.frame_size slot))] ∧
    (ledscape_draw leds slot observed).leds.ws281x_0.pixels_dma
      = add32 leds.pru0.ddr_addr (mul32 leds.frame_size slot) ∧
    (ledscape_draw leds slot observed).leds.ws281x_1.pixels_dma
      = add32 leds.pru0.ddr_addr (mul32 leds.frame_size slot) ∧
    (slot < 2 →
      add32 leds.pru0.ddr_addr (mul32 leds.frame_size slot)
        = leds.pru0.ddr_addr + leds.frame_size * slot ∧
      leds.pru0.ddr_addr ≤ add32 leds.pru0.ddr_addr (mul32 leds.frame_size slot) ∧
      add32 leds.pru0.ddr_addr (mul32 leds.frame_size slot) + leds.frame_size
        ≤ leds.pru0.ddr_addr + leds.pru0.ddr_size) ∧
    (∀ x, ¬ (add32 leds.pru0.ddr_addr (mul32 leds.frame_size 0) ≤ x ∧
        x < add32 leds.pru0.ddr_addr (mul32 leds.frame_size 0) + leds.frame_size ∧
        add32 leds.pru0.ddr_addr (mul32 leds.frame_size 1) ≤ x ∧
        x < add32 leds.pru0.ddr_addr (mul32 leds.frame_size 1) + leds.frame_size)) ∧
    (slot ≥ 2 →
      ledscape_frame leds slot = NULL ∧
      (leds.pru0.ddr_addr + leds.frame_size * slot < 2 ^ 32 →
        (ledscape_draw leds slot observed).leds.ws281x_0.pixels_dma
          = leds.pru0.ddr_addr + leds.frame_size * slot ∧
        (ledscape_draw leds slot observed).leds.ws281x_1.pixels_dma
          = leds.pru0.ddr_addr + leds.frame_size * slot)) := by
  obtain ⟨hlog, hdma0, hdma1, _, _⟩ := draw_published leds slot observed
  have hfit : ∀ s, s < 2 → leds.pru0.ddr_addr + leds.frame_size * s < 2 ^ 32 := by
    intro s hs
    have hcases : s = 0 ∨ s = 1 := by omega
    rcases hcases with rfl | rfl
    · simpa using haddr
    · rw [Nat.mul_one]
      by_contra hge
      have h1 : leds.frame_size = 0 := by omega
      omega
  refine ⟨hlog, hdma0, hdma1, ?_, ?_, ?_⟩
  · intro hs
    have hcases : slot = 0 ∨ slot = 1 := by omega
    rw [published_address_without_wrap _ _ _ (hfit slot hs)]
    rcases hcases with rfl | rfl
    · refine ⟨rfl, by omega, by omega⟩
    · refine ⟨rfl, by omega, by omega⟩
  · intro x
    rw [published_address_without_wrap _ _ _ (hfit 0 (by omega)),
      published_address_without_wrap _ _ _ (hfit 1 (by omega))]
    omega
  · intro hs
    refine ⟨?_, ?_⟩
    · unfold ledscape_frame
      rw [if_pos hs]
    · intro hw
      rw [hdma0, hdma1, published_address_without_wrap _ _ _ hw]
      exact ⟨rfl, rfl⟩

/-- C20, witness: on `example_leds` (base 2657878016, frame size 19200, region
size 262144) drawing slot 1 publishes 2657897216 to both coprocessors, and the
19200 bytes from there end inside the shared region; drawing slot 2, for which
`ledscape_frame` returns `NULL`, publishes 2657916416. -/
theorem transfer_inside_double_buffer_witness :
    (ledscape_draw example_leds 1 [⟨0, 0, 0, 0⟩]).leds.ws281x_0.pixels_dma = 2657897216 ∧
    (ledscape_draw example_leds 1 [⟨0, 0, 0, 0⟩]).leds.ws281x_1.pixels_dma = 2657897216 ∧
    2657897216 + 19200 ≤ 2657878016 + 262144 ∧
    ledscape_frame example_leds 2 = NULL ∧
    (ledscape_draw example_leds 2 [⟨0, 0, 0, 0⟩]).leds.ws281x_0.pixels_dma = 2657916416 := by
  have h1 := transfer_inside_double_buffer example_leds 1 [⟨0, 0, 0, 0⟩]
    (by decide) (by decide) (by decide)
  have h2 := transfer_inside_double_buffer example_leds 2 [⟨0, 0, 0, 0⟩]
    (by decide) (by decide) (by decide)
  refine ⟨?_, ?_, by decide, (h2.2.2.2.2.2 (by decide)).1, ?_⟩
  · rw [h1.2.1]; decide
  · rw [h1.2.2.1]; decide
  · rw [((h2.2.2.2.2.2 (by decide)).2 (by decide)).1]; decide

end LEDscape
